import Mathlib

/-!
# curvetun: start-up checks, key bootstrapping and option handling

A shallow embedding of `src/curvetun.c` (namespace `Curvetun`) and of
`pcap_dump` in `src/lib/dump.c` (namespace `Dump`, with a world of its own).
In `Curvetun` every C function that touches the outside world becomes a function
`World → Result α`: it returns how the call ended (`ret` or `died`), the world
it leaves behind and the calls it made, in program order.

What the model leaves out or fixes:

* `open(..., O_RDONLY)` succeeds exactly when the path resolves; access rights
  and ownership are not modelled, and a failing `read` counts as a read of 0
  bytes.
* `close`, `fflush`, `xfree`, `getuid` and `seteuid` leave no trace and change
  nothing.
* `creat`, `write`, `mkdir`, `daemon` and the functions of other translation
  units (`parse_userfile_and_generate_user_store_or_die`, `client_main`,
  `server_main`, `curve25519_selftest`, ...) are calls whose results the world
  fixes.
* Output is recorded in the order of the calls; the buffering of `printf`
  against direct `write(2)` calls is not modelled.
* Messages of `panic`, `help`, `version` and `header` are abridged; of the
  format arguments of a `panic` only the first is kept.
* `snprintf(path, PATH_MAX, "%s/%s", home, file)` is `snprintf_path`, which
  cuts the text after `PATH_MAX - 1` characters.
* `main` runs over the list of results of successive `getopt_long` calls.
-/

namespace Curvetun

/-! ## Constants of the C library and of the missing headers -/

/-- Value of `PATH_MAX` in `limits.h` on Linux. -/
def PATH_MAX : Nat := 4096

def S_IFMT : Nat := 0o170000
def S_IFREG : Nat := 0o100000
def S_IRUSR : Nat := 0o400
def S_IWUSR : Nat := 0o200
def S_IRWXU : Nat := 0o700
def S_IRGRP : Nat := 0o040
def S_IXGRP : Nat := 0o010

def EIO : Int := 5
def EINVAL : Int := 22
def EEXIST : Int := 17

def SIGHUP : Nat := 1
def SIGINT : Nat := 2

/-- Value of `crypto_box_curve25519xsalsa20poly1305_PUBLICKEYBYTES` in NaCl. -/
def PUBLICKEYBYTES : Nat := 32
/-- Value of `crypto_box_curve25519xsalsa20poly1305_SECRETKEYBYTES` in NaCl. -/
def SECRETKEYBYTES : Nat := 32
/-- Value of `crypto_auth_hmacsha512256_KEYBYTES` in NaCl. -/
def KEYBYTES : Nat := 32

def CURVETUN_ENTROPY_SOURCE : String := "/dev/random"

/-- Modelled from the spec: the header `curvetun.h` that defines the `FILE_*`
names and `LOCKFILE` is not among the sources; the file names are the ones the
text of `help()` gives below `~/`. -/
def FILE_CLIENTS : String := ".curvetun/clients"
/-- Modelled from the spec: see `FILE_CLIENTS`. -/
def FILE_SERVERS : String := ".curvetun/servers"
/-- Modelled from the spec: see `FILE_CLIENTS`. -/
def FILE_PRIVKEY : String := ".curvetun/priv.key"
/-- Modelled from the spec: see `FILE_CLIENTS`. -/
def FILE_PUBKEY : String := ".curvetun/pub.key"
/-- Modelled from the spec: see `FILE_CLIENTS`. -/
def FILE_USERNAM : String := ".curvetun/username"
/-- Modelled from the spec: see `FILE_CLIENTS`. -/
def FILE_TOKEN : String := ".curvetun/auth_token"
/-- Modelled from the spec: see `FILE_CLIENTS`; any fixed path does. -/
def LOCKFILE : String := "/var/run/curvetun.pid"

/-! ## The world and the calls a run makes -/

/-- What a path resolves to: the mode `stat` reports and the bytes a read
delivers.  `st_size` is the length of `data`. -/
structure Inode where
  st_mode : Nat
  data : List Nat
  deriving DecidableEq, Repr

/-- The fields of `struct stat` the program looks at. -/
structure Stat where
  st_mode : Nat
  st_size : Nat

inductive OpenFlags where
  | rdonly
  | wronly_creat
  | wronly_creat_trunc
  | rdwr_creat_excl
  deriving DecidableEq, Repr

/-- Calls with an effect outside the process, in the order they are made. -/
inductive Event where
  | stat (path : String)
  | open_ (path : String) (flags : OpenFlags)
  | write (path : String) (bytes : List Nat)
  | mkdir (path : String) (mode : Nat)
  | unlink (path : String)
  | stdout (text : String)
  | write_stdout (bytes : List Nat)
  | info (text : String)
  | stderr (text : String)
  | daemon
  | umask (mask : Nat)
  | register_signal (sig : Nat)
  | curve25519_selftest
  | print_stun_probe (server : String) (sport : Nat) (tport : String)
  | parse_user_store (home : String)
  | parse_serv_store (home : String)
  | dump_user_store
  | dump_serv_store
  | destroy_user_store
  | destroy_serv_store
  | get_serv_store_entry_by_alias (alias_ : Option String) (len : Nat)
  | client_main (home : String) (dev : Option String) (host port : String) (udp : Int)
  | server_main (home : String) (dev : Option String) (port : String) (udp ipv4 : Int)
  deriving DecidableEq, Repr

/-- The environment of one run.  `fs` is the file system; the other fields are
what the process inherits and the answers of calls whose code is outside
`curvetun.c`. -/
structure World where
  fs : String → Option Inode
  umask : Nat
  getenv : String → Option String
  ppid : Nat
  pid : Nat
  /-- Bytes the entropy source still has to give. -/
  entropy : List Nat
  /-- The line `fgets` reads from standard input, newline included; `none` at end of file. -/
  stdin_line : Option (List Nat)
  /-- Indeterminate first contents of an automatic array, by variable name. -/
  stack : String → List Nat
  /-- Whether an `open` that may create the path fails. -/
  creat_fails : String → Bool
  /-- Return value of `write` for a path and a buffer. -/
  write_ret : String → List Nat → Int
  /-- `errno` of a failing `mkdir`, `none` when it succeeds. -/
  mkdir_errno : String → Option Int
  /-- Return value of `daemon(0, 0)`. -/
  daemon_ret : Int
  /-- Whether `curve25519_selftest` returns. -/
  selftest_ok : Bool
  /-- The function `crypto_scalarmult_curve25519_base` computes. -/
  scalarmult_base : List Nat → List Nat
  /-- Whether the store parsers return (they die on a malformed file). -/
  parse_user_ok : Bool
  parse_serv_ok : Bool
  /-- What `get_serv_store_entry_by_alias` stores through its three out-pointers. -/
  serv_lookup : Option String → Nat → Option String × Option String × Int
  client_main_ret : Int
  server_main_ret : Int

/-- How a call ended: it returned a value, or the process was terminated
(`die()` is `exit(EXIT_FAILURE)`; `panic` prints and calls `die()`). -/
inductive Outcome (α : Type) where
  | ret (a : α)
  | died
  deriving DecidableEq, Repr

structure Result (α : Type) where
  out : Outcome α
  w : World
  trace : List Event

/-- A C function: from the world it starts in to its result. -/
def Proc (α : Type) : Type := World → Result α

def Proc.pure {α : Type} (a : α) : Proc α := fun w => ⟨.ret a, w, []⟩

def Proc.bind {α β : Type} (x : Proc α) (f : α → Proc β) : Proc β := fun w =>
  match x w with
  | ⟨.ret a, w1, t1⟩ => ⟨(f a w1).out, (f a w1).w, t1 ++ (f a w1).trace⟩
  | ⟨.died, w1, t1⟩ => ⟨.died, w1, t1⟩

instance : Monad Proc where
  pure := Proc.pure
  bind := Proc.bind

def emit (e : Event) : Proc Unit := fun w => ⟨.ret (), w, [e]⟩

def getWorld : Proc World := fun w => ⟨.ret w, w, []⟩

def setWorld (w1 : World) : Proc Unit := fun _ => ⟨.ret (), w1, []⟩

/-- The call `die()`. -/
def die {α : Type} : Proc α := fun w => ⟨.died, w, []⟩

/-- The call `panic(msg)`: the message goes to standard error, then `die()`. -/
def panic {α : Type} (msg : String) : Proc α := fun w => ⟨.died, w, [.stderr msg]⟩

def info (msg : String) : Proc Unit := emit (.info msg)

def printf (text : String) : Proc Unit := emit (.stdout text)

/-! ## System calls -/

/-- The result of `snprintf(path, sizeof(path), "%s/%s", home, file)` followed by
`path[sizeof(path) - 1] = 0`: at most `PATH_MAX - 1` characters are kept. -/
def snprintf_path (home file : String) : String :=
  ⟨(home.data ++ '/' :: file.data).take (PATH_MAX - 1)⟩

def stat (path : String) : Proc (Option Stat) := fun w =>
  ⟨.ret ((w.fs path).map fun i => ⟨i.st_mode, i.data.length⟩), w, [.stat path]⟩

/-- The macro `S_ISREG`. -/
def S_ISREG (m : Nat) : Bool := m &&& S_IFMT == S_IFREG

/-- A value as the 32-bit unsigned `mode_t` holds it. -/
def u32 (x : Nat) : Nat := x % 2 ^ 32

/-- Bitwise complement of an `int` constant read as a 32-bit `mode_t`. -/
def compl32 (x : Nat) : Nat := (2 ^ 32 - 1) ^^^ u32 x

/-! ## Checks of the configuration files -/

def check_file_or_die (home file : String) (maybeempty : Int) : Proc Unit := do
  let path := snprintf_path home file
  match (← stat path) with
  | none => panic ("No such file " ++ path ++ "! Type --help for further information\n")
  | some st =>
    if !S_ISREG st.st_mode then
      panic (path ++ " is not a regular file!\n")
    else if u32 st.st_mode &&& compl32 S_IFREG ≠ (S_IRUSR ||| S_IWUSR) then
      panic ("You have set too many permissions on " ++ path ++ "!\n")
    else if maybeempty = 0 ∧ st.st_size = 0 then
      panic (path ++ " is empty!\n")
    else
      pure ()

def check_config_exists_or_die (home : Option String) : Proc Unit := do
  match home with
  | none => panic "No home dir specified!\n"
  | some home =>
    check_file_or_die home FILE_CLIENTS 1
    check_file_or_die home FILE_SERVERS 1
    check_file_or_die home FILE_PRIVKEY 0
    check_file_or_die home FILE_PUBKEY 0
    check_file_or_die home FILE_USERNAM 0
    check_file_or_die home FILE_TOKEN 0

/-! ## Buffers, reads and writes -/

/-- The call `memset(buf, c, n)`. -/
def memset (buf : List Nat) (c n : Nat) : List Nat :=
  List.replicate n (c % 256) ++ buf.drop n

/-- An automatic array of `n` bytes that the code does not initialise. -/
def uninit (w : World) (name : String) (n : Nat) : List Nat :=
  (w.stack name ++ List.replicate n 0).take n

/-- The call `open(path, O_RDONLY)`.  A descriptor is the list of bytes not yet
read from it; `none` is a negative return value.  Access rights are not
modelled: the open succeeds on every path that resolves. -/
def open_rdonly (path : String) : Proc (Option (List Nat)) := fun w =>
  ⟨.ret ((w.fs path).map fun i => i.data), w, [.open_ path .rdonly]⟩

/-- The call `read(fd, buf, n)`: return value, buffer afterwards, descriptor
afterwards.  A failing read is taken as one that returns 0: the code only
compares the return value with the size asked for, or with 0. -/
def read (fd buf : List Nat) (n : Nat) : Int × List Nat × List Nat :=
  ((fd.take n).length, fd.take n ++ buf.drop (fd.take n).length, fd.drop n)

/-- The call `open_or_die(path, O_RDONLY)` of `write_or_die.c`. -/
def open_or_die (path : String) : Proc (List Nat) := do
  match (← open_rdonly path) with
  | none => panic ("Cannot open file " ++ path ++ "!\n")
  | some fd => pure fd

/-- The call `read_exact(fd, buf, n, 0)` on a descriptor of the entropy source:
return value and buffer afterwards.  The device delivers the bytes of
`World.entropy`, each of them once. -/
def read_exact_entropy (buf : List Nat) (n : Nat) : Proc (Int × List Nat) := fun w =>
  ⟨.ret ((w.entropy.take n).length, w.entropy.take n ++ buf.drop (w.entropy.take n).length),
    { w with entropy := w.entropy.drop n }, []⟩

def setFile (w : World) (path : String) (ino : Inode) : World :=
  { w with fs := fun p => if p = path then some ino else w.fs p }

/-- The calls `open(path, O_WRONLY | O_CREAT | O_TRUNC, mode)` (`trunc`) and
`open(path, O_WRONLY | O_CREAT, mode)`: whether a descriptor was returned.  The
descriptor is the path. -/
def open_creat (path : String) (trunc : Bool) (mode : Nat) : Proc Bool := fun w =>
  let flags := if trunc then OpenFlags.wronly_creat_trunc else OpenFlags.wronly_creat
  if w.creat_fails path then ⟨.ret false, w, [.open_ path flags]⟩
  else
    match w.fs path with
    | some i =>
      ⟨.ret true, setFile w path (if trunc then { i with data := [] } else i), [.open_ path flags]⟩
    | none =>
      ⟨.ret true, setFile w path ⟨S_IFREG ||| (mode &&& compl32 w.umask), []⟩, [.open_ path flags]⟩

/-- The call `open(path, O_RDWR | O_CREAT | O_EXCL, mode)`. -/
def open_excl (path : String) (mode : Nat) : Proc Bool := fun w =>
  if w.creat_fails path then ⟨.ret false, w, [.open_ path .rdwr_creat_excl]⟩
  else
    match w.fs path with
    | some _ => ⟨.ret false, w, [.open_ path .rdwr_creat_excl]⟩
    | none =>
      ⟨.ret true, setFile w path ⟨S_IFREG ||| (mode &&& compl32 w.umask), []⟩,
        [.open_ path .rdwr_creat_excl]⟩

/-- The call `write(fd, buf, n)` on a descriptor just opened for writing: the
bytes the kernel accepted are appended to the file. -/
def write (path : String) (buf : List Nat) (n : Nat) : Proc Int := fun w =>
  let ret := w.write_ret path (buf.take n)
  match w.fs path with
  | some i =>
    ⟨.ret ret, setFile w path { i with data := i.data ++ (buf.take n).take ret.toNat },
      [.write path (buf.take n)]⟩
  | none => ⟨.ret ret, w, [.write path (buf.take n)]⟩

/-- The call `mkdir(path, mode)` after `errno = 0`: return value and `errno`. -/
def mkdir (path : String) (mode : Nat) : Proc (Int × Int) := fun w =>
  match w.mkdir_errno path with
  | none => ⟨.ret (0, 0), w, [.mkdir path mode]⟩
  | some e => ⟨.ret (-1, e), w, [.mkdir path mode]⟩

/-- The bytes of a C string; a character is one byte. -/
def str_bytes (s : String) : List Nat := s.data.map fun c => c.toNat % 256

/-- The C string a byte buffer holds: the bytes before the first NUL. -/
def cstr (buf : List Nat) : List Nat := buf.takeWhile fun b => b ≠ 0

/-! ## The NaCl primitives -/

/-- The 32 bytes `crypto_scalarmult_curve25519_base(q, n)` stores in `q`; the
function itself is kept abstract as `World.scalarmult_base`. -/
def crypto_scalarmult_curve25519_base (w : World) (n : List Nat) : List Nat :=
  (w.scalarmult_base (n.take 32) ++ List.replicate 32 0).take 32

/-- The call `crypto_verify_32(x, y)` of NaCl: 0 when the first 32 bytes agree, -1 otherwise. -/
def crypto_verify_32 (x y : List Nat) : Int :=
  if x.take 32 = y.take 32 then 0 else -1

/-! ## Key bootstrapping -/

def write_username (home : String) : Proc Unit := do
  let w ← getWorld
  let path := snprintf_path home FILE_USERNAM
  printf ("Username: [" ++ (w.getenv "USER").getD "(null)" ++ "] ")
  let user := List.replicate 512 0
  let user := match w.stdin_line with
    | none => user
    | some line => line.take 511 ++ user.drop (line.take 511).length
  -- `user[strlen(user) - 1] = 0`; with an empty string the store is outside `user`
  let user := if (cstr user).length = 0 then user else (cstr user).dropLast ++ [0]
  let name ← (if (cstr user).length = 0 then
      match w.getenv "USER" with
      | none => die
      | some u => pure ((str_bytes u).take 511)
    else pure (cstr user) : Proc (List Nat))
  let ok ← open_creat path true (S_IRUSR ||| S_IWUSR)
  if !ok then panic "Cannot open your username file!\n"
  else
    let ret ← write path name name.length
    if ret ≠ name.length then panic "Could not write username!\n"
    else info ("Username written to " ++ path ++ "!\n")

def create_curvedir (home : String) : Proc Unit := do
  let path := snprintf_path home ".curvetun/"
  let (ret, errno) ← mkdir path S_IRWXU
  if ret < 0 ∧ errno ≠ EEXIST then panic "Cannot create curvetun dir!\n"
  else
    info ("curvetun directory " ++ path ++ " created!\n")
    -- We also create empty files for clients and servers!
    let path := snprintf_path home FILE_CLIENTS
    let ok ← open_creat path false (S_IRUSR ||| S_IWUSR)
    if !ok then panic "Cannot open clients file!\n"
    else
      info ("Empty client file written to " ++ path ++ "!\n")
      let path := snprintf_path home FILE_SERVERS
      let ok ← open_creat path false (S_IRUSR ||| S_IWUSR)
      if !ok then panic "Cannot open servers file!\n"
      else info ("Empty server file written to " ++ path ++ "!\n")

/-- The automatic variables of `create_keypair`. -/
structure KeygenLocals where
  publickey : List Nat
  secretkey : List Nat
  err : Int
  errstr : Option String
  deriving DecidableEq, Repr

/-- The function `create_keypair` from its entry to the label `out`. -/
def create_keypair_to_out (home : String) : Proc KeygenLocals := do
  let publickey := List.replicate PUBLICKEYBYTES 0
  let secretkey := List.replicate SECRETKEYBYTES 0
  info ("Reading from " ++ CURVETUN_ENTROPY_SOURCE ++ " (this may take a while) ...\n")
  let _ ← open_or_die CURVETUN_ENTROPY_SOURCE
  let (ret, secretkey) ← read_exact_entropy secretkey SECRETKEYBYTES
  if ret ≠ SECRETKEYBYTES then
    pure ⟨publickey, secretkey, EIO, some "Cannot read from /dev/random!\n"⟩
  else
    let w ← getWorld
    let publickey := crypto_scalarmult_curve25519_base w secretkey
    let path := snprintf_path home FILE_PUBKEY
    let ok ← open_creat path true (S_IRUSR ||| S_IWUSR)
    if !ok then pure ⟨publickey, secretkey, EIO, some "Cannot open pubkey file!\n"⟩
    else
      let ret ← write path publickey PUBLICKEYBYTES
      if ret ≠ PUBLICKEYBYTES then
        pure ⟨publickey, secretkey, EIO, some "Cannot write public key!\n"⟩
      else
        info ("Public key written to " ++ path ++ "!\n")
        let path := snprintf_path home FILE_PRIVKEY
        let ok ← open_creat path true (S_IRUSR ||| S_IWUSR)
        if !ok then pure ⟨publickey, secretkey, EIO, some "Cannot open privkey file!\n"⟩
        else
          let ret ← write path secretkey SECRETKEYBYTES
          if ret ≠ SECRETKEYBYTES then
            pure ⟨publickey, secretkey, EIO, some "Cannot write private key!\n"⟩
          else pure ⟨publickey, secretkey, 0, none⟩

/-- The function `create_keypair` up to and including the two `memset` calls
below the label `out`. -/
def create_keypair_wiped (home : String) : Proc KeygenLocals := do
  let l ← create_keypair_to_out home
  pure { l with
    publickey := memset l.publickey 0 PUBLICKEYBYTES
    secretkey := memset l.secretkey 0 SECRETKEYBYTES }

def create_keypair (home : String) : Proc Unit := do
  let l ← create_keypair_wiped home
  if l.err ≠ 0 then panic (l.errstr.getD "(null)")
  else info ("Private key written to " ++ snprintf_path home FILE_PRIVKEY ++ "!\n")

/-- The automatic variables of `create_token`. -/
structure TokenLocals where
  token : List Nat
  err : Int
  errstr : Option String
  deriving DecidableEq, Repr

/-- The function `create_token` from its entry to the label `out`. -/
def create_token_to_out (home : String) : Proc TokenLocals := do
  let w ← getWorld
  let token := uninit w "token" KEYBYTES
  info ("Reading from " ++ CURVETUN_ENTROPY_SOURCE ++ " (this may take a while) ...\n")
  let _ ← open_or_die CURVETUN_ENTROPY_SOURCE
  let (ret, token) ← read_exact_entropy token KEYBYTES
  if ret ≠ KEYBYTES then pure ⟨token, EIO, some "Cannot read from /dev/random!\n"⟩
  else
    let path := snprintf_path home FILE_TOKEN
    let ok ← open_creat path true (S_IRUSR ||| S_IWUSR)
    if !ok then pure ⟨token, EIO, some "Cannot open pubkey file!\n"⟩
    else
      let ret ← write path token KEYBYTES
      if ret ≠ KEYBYTES then pure ⟨token, EIO, some "Cannot write auth token!\n"⟩
      else pure ⟨token, 0, none⟩

/-- The function `create_token` up to and including the `memset` below `out`. -/
def create_token_wiped (home : String) : Proc TokenLocals := do
  let l ← create_token_to_out home
  pure { l with token := memset l.token 0 KEYBYTES }

def create_token (home : String) : Proc Unit := do
  let l ← create_token_wiped home
  if l.err ≠ 0 then panic (l.errstr.getD "(null)")
  else info ("Auth token written to " ++ snprintf_path home FILE_TOKEN ++ "!\n")

/-- The automatic variables of `check_config_keypair_or_die`. -/
structure KeypairLocals where
  publickey : List Nat
  publicres : List Nat
  secretkey : List Nat
  err : Int
  errstr : Option String
  deriving DecidableEq, Repr

/-- The function `check_config_keypair_or_die` from its entry to the label `out`. -/
def check_config_keypair_to_out (home : String) : Proc KeypairLocals := do
  let w ← getWorld
  let publickey := uninit w "publickey" PUBLICKEYBYTES
  let publicres := uninit w "publicres" PUBLICKEYBYTES
  let secretkey := uninit w "secretkey" SECRETKEYBYTES
  match (← open_rdonly (snprintf_path home FILE_PRIVKEY)) with
  | none => pure ⟨publickey, publicres, secretkey, EIO, some "Cannot open privkey file!\n"⟩
  | some fd =>
    let (ret, secretkey, _) := read fd secretkey SECRETKEYBYTES
    if ret ≠ SECRETKEYBYTES then
      pure ⟨publickey, publicres, secretkey, EIO, some "Cannot read private key!\n"⟩
    else
      match (← open_rdonly (snprintf_path home FILE_PUBKEY)) with
      | none => pure ⟨publickey, publicres, secretkey, EIO, some "Cannot open pubkey file!\n"⟩
      | some fd =>
        let (ret, publickey, _) := read fd publickey PUBLICKEYBYTES
        if ret ≠ PUBLICKEYBYTES then
          pure ⟨publickey, publicres, secretkey, EIO, some "Cannot read public key!\n"⟩
        else
          let publicres := crypto_scalarmult_curve25519_base w secretkey
          let err := crypto_verify_32 publicres publickey
          if err ≠ 0 then
            pure ⟨publickey, publicres, secretkey, EINVAL,
              some "WARNING: your keypair is corrupted!!! You need to generate new keys!!!\n"⟩
          else pure ⟨publickey, publicres, secretkey, err, none⟩

/-- The function `check_config_keypair_or_die` up to and including the three
`memset` calls below the label `out`. -/
def check_config_keypair_wiped (home : String) : Proc KeypairLocals := do
  let l ← check_config_keypair_to_out home
  pure { l with
    publickey := memset l.publickey 0 PUBLICKEYBYTES
    publicres := memset l.publicres 0 PUBLICKEYBYTES
    secretkey := memset l.secretkey 0 SECRETKEYBYTES }

def check_config_keypair_or_die (home : String) : Proc Unit := do
  let l ← check_config_keypair_wiped home
  if l.err ≠ 0 then panic (l.errstr.getD "(null)") else pure ()

def main_keygen (home : String) : Proc Int := do
  create_curvedir home
  write_username home
  create_keypair home
  create_token home
  check_config_keypair_or_die home
  pure 0

/-! ## Export of the public data and of the auth token -/

/-- The text `printf("%02x", n)` produces: lower-case hexadecimal, padded with
`0` to two characters. -/
def fmt_02x (n : Nat) : String :=
  ⟨List.replicate (2 - (Nat.toDigits 16 n).length) '0' ++ Nat.toDigits 16 n⟩

/-- The loop `for (i = 0; i < ret; ++i)` that prints `tmp`, from index `i` on;
the first argument bounds the number of iterations left. -/
def print_hex_loop (tmp : List Nat) (ret : Int) : Nat → Nat → Proc Unit
  | 0, _ => pure ()
  | fuel + 1, i =>
    if (i : Int) < ret then do
      if (i : Int) = ret - 1 then printf (fmt_02x (tmp.getD i 0 % 256) ++ "\n\n")
      else printf (fmt_02x (tmp.getD i 0 % 256) ++ ":")
      print_hex_loop tmp ret fuel (i + 1)
    else pure ()

/-- The loop `while ((ret = read(fd, tmp, sizeof(tmp))) > 0) write(STDOUT_FILENO, tmp, ret)`
of `main_export`; it returns `tmp` as the loop leaves it.  The first argument
bounds the number of iterations left. -/
def cat_loop : Nat → List Nat → List Nat → Proc (List Nat)
  | 0, _, tmp => pure tmp
  | fuel + 1, fd, tmp =>
    if (read fd tmp 64).1 > 0 then do
      emit (.write_stdout ((read fd tmp 64).2.1.take (read fd tmp 64).1.toNat))
      cat_loop fuel (read fd tmp 64).2.2 (read fd tmp 64).2.1
    else pure (read fd tmp 64).2.1

def main_token (home : String) : Proc Int := do
  check_config_exists_or_die (some home)
  printf "Your auth token for clients:\n\n"
  let w ← getWorld
  let tmp := uninit w "tmp" KEYBYTES
  let fd ← open_or_die (snprintf_path home FILE_TOKEN)
  let (ret, tmp, _) := read fd tmp KEYBYTES
  if ret ≠ KEYBYTES then panic "Cannot read auth token!\n"
  else
    print_hex_loop tmp ret ret.toNat 0
    pure 0

def main_export (home : String) : Proc Int := do
  check_config_exists_or_die (some home)
  check_config_keypair_or_die home
  printf "Your exported public information:\n\n"
  let w ← getWorld
  let tmp := uninit w "tmp" 64
  let fd ← open_or_die (snprintf_path home FILE_USERNAM)
  let tmp ← cat_loop (fd.length + 1) fd tmp
  printf ";"
  let fd ← open_or_die (snprintf_path home FILE_PUBKEY)
  let (ret, tmp, _) := read fd tmp 64
  if ret ≠ PUBLICKEYBYTES then panic "Cannot read public key!\n"
  else
    print_hex_loop tmp ret ret.toNat 0
    pure 0

/-! ## Functions of the other compilation units, by their calls -/

def parse_userfile_and_generate_user_store_or_die (home : String) : Proc Unit := fun w =>
  ⟨if w.parse_user_ok then .ret () else .died, w, [.parse_user_store home]⟩

def parse_userfile_and_generate_serv_store_or_die (home : String) : Proc Unit := fun w =>
  ⟨if w.parse_serv_ok then .ret () else .died, w, [.parse_serv_store home]⟩

def get_serv_store_entry_by_alias (alias_ : Option String) (len : Nat) :
    Proc (Option String × Option String × Int) := fun w =>
  ⟨.ret (w.serv_lookup alias_ len), w, [.get_serv_store_entry_by_alias alias_ len]⟩

def client_main (home : String) (dev : Option String) (host port : String) (udp : Int) :
    Proc Int := fun w =>
  ⟨.ret w.client_main_ret, w, [.client_main home dev host port udp]⟩

def server_main (home : String) (dev : Option String) (port : String) (udp ipv4 : Int) :
    Proc Int := fun w =>
  ⟨.ret w.server_main_ret, w, [.server_main home dev port udp ipv4]⟩

def curve25519_selftest : Proc Unit := fun w =>
  ⟨if w.selftest_ok then .ret () else .died, w, [.curve25519_selftest]⟩

/-- The call `print_stun_probe(server, sport, strtoul(port, NULL, 10))`; the
event keeps the port as the string it is parsed from. -/
def print_stun_probe (server : String) (sport : Nat) (port : String) : Proc Unit :=
  emit (.print_stun_probe server sport port)

/-! ## The working modes -/

def main_dumpc (home : String) : Proc Int := do
  check_config_exists_or_die (some home)
  check_config_keypair_or_die home
  printf "Your clients:\n\n"
  parse_userfile_and_generate_user_store_or_die home
  emit .dump_user_store
  emit .destroy_user_store
  printf "\n"
  die

def main_dumps (home : String) : Proc Int := do
  check_config_exists_or_die (some home)
  check_config_keypair_or_die home
  printf "Your servers:\n\n"
  parse_userfile_and_generate_serv_store_or_die home
  emit .dump_serv_store
  emit .destroy_serv_store
  printf "\n"
  die

/-- The call `umask(mask)`. -/
def umask (mask : Nat) : Proc Unit := fun w =>
  ⟨.ret (), { w with umask := mask }, [.umask mask]⟩

/-- The call `daemon(0, 0)`: the run goes on in the child. -/
def daemon : Proc Int := fun w => ⟨.ret w.daemon_ret, w, [.daemon]⟩

def daemonize (lockfile : Option String) : Proc Unit := do
  let w ← getWorld
  let lperm := S_IRWXU ||| S_IRGRP ||| S_IXGRP
  if w.ppid = 1 then pure ()
  else
    let r ← daemon
    if r ≠ 0 then panic "Cannot daemonize"
    else
      umask lperm
      match lockfile with
      | none => pure ()
      | some lockfile =>
        let ok ← open_excl lockfile 0o640
        if !ok then
          panic ("Cannot create lockfile at " ++ lockfile ++ "! curvetun server already running?\n")
        else
          let pidstr := (str_bytes (Nat.repr w.pid)).take 7
          let ret ← write lockfile pidstr pidstr.length
          if ret ≤ 0 then panic ("Could not write pid to pidfile " ++ lockfile)
          else pure ()

/-- The expression `alias ? strlen(alias) + 1 : 0`. -/
def alias_len (alias_ : Option String) : Nat :=
  match alias_ with
  | some a => a.length + 1
  | none => 0

def main_client (home : String) (dev alias_ : Option String) (daemon : Int) : Proc Int := do
  check_config_exists_or_die (some home)
  check_config_keypair_or_die home
  parse_userfile_and_generate_serv_store_or_die home
  let (host, port, udp) ← get_serv_store_entry_by_alias alias_ (alias_len alias_)
  match host, port with
  | some host, some port =>
    if udp < 0 then panic "Did not find alias/entry in configuration!\n"
    else
      printf ("Using [" ++ alias_.getD "default" ++ "] -> " ++ host ++ ":" ++ port ++ " via " ++
        (if udp ≠ 0 then "udp" else "tcp") ++ " as endpoint!\n")
      if daemon ≠ 0 then daemonize none
      let ret ← client_main home dev host port udp
      emit .destroy_serv_store
      pure ret
  | _, _ => panic "Did not find alias/entry in configuration!\n"

def main_server (home : String) (dev : Option String) (port : String) (udp ipv4 daemon : Int) :
    Proc Int := do
  check_config_exists_or_die (some home)
  check_config_keypair_or_die home
  if daemon ≠ 0 then daemonize (some LOCKFILE)
  let ret ← server_main home dev port udp ipv4
  emit (.unlink LOCKFILE)
  pure ret

/-! ## Option handling and `main` -/

inductive working_mode where
  | MODE_UNKNOW
  | MODE_KEYGEN
  | MODE_EXPORT
  | MODE_TOKEN
  | MODE_DUMPC
  | MODE_DUMPS
  | MODE_CLIENT
  | MODE_SERVER
  deriving DecidableEq, Repr

open working_mode

/-- The function `help`; of the text it prints the option list is kept. -/
def help {α : Type} : Proc α := do
  printf ("Usage: curvetun [options]\n" ++
    "Options:\n" ++
    "  -k|--keygen             Generate public/private keypair\n" ++
    "  -x|--export             Export your public data for remote servers\n" ++
    "  -A|--auth-token         Export your shared auth_token for remote clients\n" ++
    "  -C|--dumpc              Dump parsed clients\n" ++
    "  -S|--dumps              Dump parsed servers\n" ++
    "  -D|--nofork             Do not daemonize\n" ++
    "  -d|--dev <tun>          Networking tunnel device, e.g. tun0\n" ++
    " Client settings:\n" ++
    "  -c|--client[=alias]     Client mode, server alias optional\n" ++
    " Server settings:\n" ++
    "  -s|--server             Server mode\n" ++
    "  -p|--port <num>         Port number (mandatory)\n" ++
    "  -t|--stun <server>      Show public IP/Port mapping via STUN\n" ++
    "  -u|--udp                Use UDP as carrier instead of TCP\n" ++
    "  -4|--ipv4               Tunnel devices are IPv4\n" ++
    "  -6|--ipv6               Tunnel devices are IPv6\n" ++
    "                          (default: same as carrier protocol)\n")
  die

/-- The function `version`; the text it prints is cut to its first words. -/
def version {α : Type} : Proc α := do
  printf "curvetun, lightweight curve25519-based multiuser IP tunnel\n"
  die

/-- The function `towel`; the picture it prints is cut to its caption. -/
def towel {α : Type} : Proc α := do
  printf "(by Sebastian Stoecker)\n"
  die

def header : Proc Unit := printf "curvetun\n"

def register_signal (sig : Nat) : Proc Unit := emit (.register_signal sig)

def fetch_home_dir : Proc String := do
  let w ← getWorld
  match w.getenv "HOME" with
  | none => panic "No HOME defined!\n"
  | some home => pure home

/-- The call `xstrdup(str)` of `xmalloc.c`; it takes the length of `str`
first, so that a null pointer ends the process. -/
def xstrdup (str : Option String) : Proc String :=
  match str with
  | none => die
  | some s => pure s

/-- One return of `getopt_long`: its value and the globals it sets. -/
structure Getopt where
  c : Char
  optarg : Option String
  optopt : Char

/-- The automatic variables of `main` that the option loop assigns. -/
structure MainLocals where
  udp : Int
  ipv4 : Int
  daemon : Int
  port : Option String
  stun : Option String
  dev : Option String
  alias_ : Option String
  wmode : working_mode
  deriving DecidableEq, Repr

/-- Their initial values. -/
def MainLocals.init : MainLocals := ⟨0, -1, 1, none, none, none, none, MODE_UNKNOW⟩

/-- The macro `isprint` in the C locale. -/
def isprint (c : Char) : Bool := 0x20 ≤ c.toNat && c.toNat ≤ 0x7e

/-- The body of the `while` loop of `main`: the `switch (c)`. -/
def main_switch (g : Getopt) (l : MainLocals) : Proc MainLocals :=
  if g.c = 'h' then help
  else if g.c = 'H' then towel
  else if g.c = 'v' then version
  else if g.c = 'D' then pure { l with daemon := 0 }
  else if g.c = 'C' then pure { l with wmode := MODE_DUMPC }
  else if g.c = 'S' then pure { l with wmode := MODE_DUMPS }
  else if g.c = 'A' then pure { l with wmode := MODE_TOKEN }
  else if g.c = 'c' then
    match g.optarg with
    | none => pure { l with wmode := MODE_CLIENT }
    | some optarg => do
      let a ← xstrdup (some (if optarg.data.head? = some '=' then ⟨optarg.data.tail⟩ else optarg))
      pure { l with wmode := MODE_CLIENT, alias_ := some a }
  else if g.c = 'd' then do
    let d ← xstrdup g.optarg
    pure { l with dev := some d }
  else if g.c = 'k' then pure { l with wmode := MODE_KEYGEN }
  else if g.c = '4' then pure { l with ipv4 := 1 }
  else if g.c = '6' then pure { l with ipv4 := 0 }
  else if g.c = 'x' then pure { l with wmode := MODE_EXPORT }
  else if g.c = 's' then pure { l with wmode := MODE_SERVER }
  else if g.c = 'u' then pure { l with udp := 1 }
  else if g.c = 't' then do
    let t ← xstrdup g.optarg
    pure { l with stun := some t }
  else if g.c = 'p' then do
    let p ← xstrdup g.optarg
    pure { l with port := some p }
  else if g.c = '?' then
    if g.optopt = 't' ∨ g.optopt = 'd' ∨ g.optopt = 'u' ∨ g.optopt = 'p' then
      panic ("Option -" ++ ⟨[g.optopt]⟩ ++ " requires an argument!\n")
    else if isprint g.optopt then do
      emit (.stderr "Unknown option character!\n")
      die
    else die
  else pure l

/-- The `while` loop of `main` over the values `getopt_long` returns before `EOF`. -/
def main_getopt_loop : List Getopt → MainLocals → Proc MainLocals
  | [], l => pure l
  | g :: gs, l => do
    let l ← main_switch g l
    main_getopt_loop gs l

/-- The `switch (wmode)` of `main`. -/
def main_mode_switch (home : String) (l : MainLocals) : Proc Int :=
  match l.wmode with
  | MODE_KEYGEN => main_keygen home
  | MODE_EXPORT => main_export home
  | MODE_TOKEN => main_token home
  | MODE_DUMPC => main_dumpc home
  | MODE_DUMPS => main_dumps home
  | MODE_CLIENT => main_client home l.dev l.alias_ l.daemon
  | MODE_SERVER =>
    match l.port with
    | none => panic "No port specified!\n"
    | some port => do
      match l.stun with
      | some stun => print_stun_probe stun 3478 port
      | none => pure ()
      main_server home l.dev port l.udp l.ipv4 l.daemon
  | MODE_UNKNOW => die

/-- The function `main`, given `argc` and the values `getopt_long` returns. -/
def main (argc : Int) (opts : List Getopt) : Proc Int := do
  let w ← getWorld
  if (w.getenv "LD_PRELOAD").isSome then panic "curvetun cannot be preloaded!\n"
  else
    let home ← fetch_home_dir
    let l ← main_getopt_loop opts MainLocals.init
    if argc < 2 then help
    else
      register_signal SIGINT
      register_signal SIGHUP
      header
      curve25519_selftest
      main_mode_switch home l

/-! ## The command line, as the help text describes it -/

/-- The last option of a command line that satisfies `p`. -/
def last_opt (p : Getopt → Bool) (opts : List Getopt) : Option Getopt :=
  opts.reverse.find? p

/-- The working mode an option letter names. -/
def mode_of_char (c : Char) : Option working_mode :=
  if c = 'k' then some MODE_KEYGEN
  else if c = 'x' then some MODE_EXPORT
  else if c = 'A' then some MODE_TOKEN
  else if c = 'C' then some MODE_DUMPC
  else if c = 'S' then some MODE_DUMPS
  else if c = 'c' then some MODE_CLIENT
  else if c = 's' then some MODE_SERVER
  else none

/-- The mode named by the last mode option, `MODE_UNKNOW` without one. -/
def last_mode (opts : List Getopt) : working_mode :=
  match last_opt (fun g => (mode_of_char g.c).isSome) opts with
  | some g => (mode_of_char g.c).getD MODE_UNKNOW
  | none => MODE_UNKNOW

/-- The carrier: UDP (1) when `-u` occurs, TCP (0) otherwise. -/
def udp_of (opts : List Getopt) : Int :=
  if opts.any (fun g => g.c = 'u') then 1 else 0

/-- The daemon flag: 0 when `-D` occurs, 1 otherwise. -/
def daemon_of (opts : List Getopt) : Int :=
  if opts.any (fun g => g.c = 'D') then 0 else 1

/-- The tunnel IP version: that of the last `-4` (1) or `-6` (0), and -1, the
same as the carrier, without one. -/
def ipv4_of (opts : List Getopt) : Int :=
  match last_opt (fun g => g.c = '4' || g.c = '6') opts with
  | some g => if g.c = '4' then 1 else 0
  | none => -1

/-- The argument of the last option `c`, if the option occurs. -/
def last_arg (c : Char) (opts : List Getopt) : Option String :=
  (last_opt (fun g => g.c = c) opts).bind fun g => g.optarg

/-- The alias: the argument of the last `-c` that has one, without a leading `=`. -/
def alias_of (opts : List Getopt) : Option String :=
  (last_opt (fun g => g.c = 'c' && g.optarg.isSome) opts).bind fun g =>
    g.optarg.map fun a => if a.data.head? = some '=' then ⟨a.data.tail⟩ else a

/-- The values the option loop leaves in the variables of `main`. -/
def locals_of (opts : List Getopt) : MainLocals where
  udp := udp_of opts
  ipv4 := ipv4_of opts
  daemon := daemon_of opts
  port := last_arg 'p' opts
  stun := last_arg 't' opts
  dev := last_arg 'd' opts
  alias_ := alias_of opts
  wmode := last_mode opts

/-- Options on which the process ends inside the option loop: help, towel,
version, an option `getopt_long` rejects, and a null argument handed to `xstrdup`. -/
def Getopt.stops (g : Getopt) : Bool :=
  g.c = 'h' || g.c = 'H' || g.c = 'v' || g.c = '?' ||
    ((g.c = 'd' || g.c = 't' || g.c = 'p') && g.optarg.isNone)

/-! ## A concrete world -/

/-- A stand-in for the base-point multiplication, for concrete runs. -/
def demo_base (n : List Nat) : List Nat := n.map fun b => (b + 1) % 256

def demo_files : List (String × Inode) :=
  [("/dev/random", ⟨0o020666, []⟩),
   ("/home/u/.curvetun/clients", ⟨0o100600, []⟩),
   ("/home/u/.curvetun/servers", ⟨0o100600, []⟩),
   ("/home/u/.curvetun/priv.key", ⟨0o100600, List.replicate 32 7⟩),
   ("/home/u/.curvetun/pub.key", ⟨0o100600, List.replicate 32 8⟩),
   ("/home/u/.curvetun/username", ⟨0o100600, [117]⟩),
   ("/home/u/.curvetun/auth_token", ⟨0o100600, List.replicate 32 171⟩)]

/-- A world with a complete configuration below `/home/u`. -/
def demo_world : World where
  fs := fun p => demo_files.lookup p
  umask := 0o022
  getenv := fun v => if v = "HOME" then some "/home/u" else if v = "USER" then some "u" else none
  ppid := 100
  pid := 4711
  entropy := List.replicate 32 7 ++ List.replicate 32 171
  stdin_line := some [117, 10]
  stack := fun _ => []
  creat_fails := fun _ => false
  write_ret := fun _ b => b.length
  mkdir_errno := fun _ => none
  daemon_ret := 0
  selftest_ok := true
  scalarmult_base := demo_base
  parse_user_ok := true
  parse_serv_ok := true
  serv_lookup := fun _ _ => (some "10.0.0.1", some "6666", 1)
  client_main_ret := 0
  server_main_ret := 0

/-- The world `demo_world` before any key was generated. -/
def fresh_world : World :=
  { demo_world with fs := fun p => [("/dev/random", (⟨0o020666, []⟩ : Inode))].lookup p }

/-! ## Kinds of calls -/

/-- Calls by which the configuration checks look at the file system. -/
def Event.is_check : Event → Bool
  | .stat _ => true
  | .open_ _ .rdonly => true
  | _ => false

/-- Calls that only talk to the terminal or set the process up. -/
def Event.is_startup : Event → Bool
  | .stdout _ => true
  | .stderr _ => true
  | .register_signal _ => true
  | .curve25519_selftest => true
  | _ => false

/-- The six files of a configuration. -/
def config_files : List String :=
  [FILE_CLIENTS, FILE_SERVERS, FILE_PRIVKEY, FILE_PUBKEY, FILE_USERNAM, FILE_TOKEN]

/-- The world `demo_world` with a public key that others may read. -/
def lax_world : World :=
  { demo_world with
    fs := fun p => if p = "/home/u/.curvetun/pub.key" then some ⟨0o100644, List.replicate 32 8⟩
      else demo_world.fs p }

/-- A world without its file system and entropy stream: what no call of the
key bootstrapping changes. -/
def World.env (w : World) : World :=
  { w with fs := fun _ => none, entropy := [] }

/-- The bytes of the file at a path, if the path resolves. -/
def World.content (w : World) (path : String) : Option (List Nat) :=
  (w.fs path).map Inode.data

/-- Calls a failing configuration check makes: `stat`, a read-only `open`, and
the message of the `panic`. -/
def Event.is_probe : Event → Bool
  | .stat _ => true
  | .open_ _ .rdonly => true
  | .stderr _ => true
  | _ => false

/-- Both start-up checks return in this world. -/
def checks_pass (w : World) (home : String) : Prop :=
  (check_config_exists_or_die (some home) w).out = .ret () ∧
    (check_config_keypair_or_die home w).out = .ret ()

instance (w : World) (home : String) : Decidable (checks_pass w home) := by
  unfold checks_pass
  exact instDecidableAnd

def Event.is_lookup : Event → Bool
  | .get_serv_store_entry_by_alias _ _ => true
  | _ => false

def Event.is_client_main : Event → Bool
  | .client_main _ _ _ _ _ => true
  | _ => false

/-- The world `demo_world` with a server store that has no entry to offer. -/
def no_entry_world : World :=
  { demo_world with serv_lookup := fun _ _ => (none, none, -1) }

/-- The command line `curvetun -s -4 -p 6666 -u -6 -D`. -/
def demo_opts : List Getopt :=
  [⟨'s', none, '\x00'⟩, ⟨'4', none, '\x00'⟩, ⟨'p', some "6666", '\x00'⟩, ⟨'u', none, '\x00'⟩,
    ⟨'6', none, '\x00'⟩, ⟨'D', none, '\x00'⟩]

/-! ## The store line format -/

end Curvetun

namespace Dump

/-! ## `lib/dump.c`: the records of a capture file

`pcap_dump` appends one record to the capture file behind a descriptor: the
record header, then bytes of the frame.  The model keeps, for each descriptor,
the bytes written to it so far; how many bytes a `write` transfers is the
world's choice.  `ssize_t` and `size_t` are 64 bits wide, so the results of
`write` are compared with the 32-bit `len` as integers.
-/

/-- Conversion to an `unsigned int` or to a `bpf_u_int32`. -/
def to_u32 (x : Nat) : Nat := x % 2 ^ 32

/-- The `struct tpacket_hdr` of `linux/if_packet.h`; `tp_status` is an
`unsigned long`, `tp_mac` and `tp_net` are `unsigned short`, the others are
`unsigned int`. -/
structure tpacket_hdr where
  tp_status : Nat
  tp_len : Nat
  tp_snaplen : Nat
  tp_mac : Nat
  tp_net : Nat
  tp_sec : Nat
  tp_usec : Nat
deriving DecidableEq, Repr

/-- Every member of the packet header fits its C type. -/
def tpacket_hdr.wf (h : tpacket_hdr) : Prop :=
  h.tp_status < 2 ^ 64 ∧ h.tp_len < 2 ^ 32 ∧ h.tp_snaplen < 2 ^ 32 ∧ h.tp_mac < 2 ^ 16 ∧
    h.tp_net < 2 ^ 16 ∧ h.tp_sec < 2 ^ 32 ∧ h.tp_usec < 2 ^ 32

instance (h : tpacket_hdr) : Decidable h.wf := by
  unfold tpacket_hdr.wf
  infer_instance

/-- Modelled from the spec: the header `netsniff-ng/dump.h` that declares
`struct pcap_sf_pkthdr` is not among the sources; `ts` is taken as the pair of
32-bit members `tv_sec` and `tv_usec` that `pcap_dump` assigns. -/
structure pcap_timeval where
  tv_sec : Nat
  tv_usec : Nat
deriving DecidableEq, Repr

/-- Modelled from the spec: see `pcap_timeval`; the members `pcap_dump` assigns,
each taken as a 32-bit unsigned value.  The bytes of the object in memory are
not fixed here: they are the parameter `image` of `pcap_dump`. -/
structure pcap_sf_pkthdr where
  ts : pcap_timeval
  caplen : Nat
  len : Nat
deriving DecidableEq, Repr

def EXIT_FAILURE : Int := 1

/-- A call `pcap_dump` makes. -/
inductive DumpEvent where
  | write (fd : Int) (count : Nat) (ret : Int)
  | err (msg : String)
  | close (fd : Int)
  | exit (status : Int)
deriving DecidableEq, Repr

structure DumpWorld where
  /-- The bytes written so far to each descriptor. -/
  file : Int → List Nat
  /-- What a `write` on a descriptor transfers, given the number of bytes
  written to it so far and the number of bytes asked for; negative for an
  error. -/
  write_ret : Int → Nat → Nat → Int

/-- The end of a call: `out` is `none` when the process has exited. -/
structure DumpResult (α : Type) where
  out : Option α
  w : DumpWorld
  trace : List DumpEvent

/-- The call `write(fd, buf, count)`, where `mem` holds the bytes readable from
`buf` on: on success the first `n` bytes are appended to the file, with `n` at
most `count` and at most what is readable, and `n` is returned; on an error
nothing is written and -1 is returned. -/
def write (fd : Int) (mem : List Nat) (count : Nat) (w : DumpWorld) : Int × DumpWorld :=
  let r := w.write_ret fd (w.file fd).length count
  if r < 0 then (-1, w)
  else
    let n := min r.toNat (min count mem.length)
    ((n : Int), { w with file := fun d => if d = fd then w.file fd ++ mem.take n else w.file d })

/-- The branch of `pcap_dump` after a failed write: `err`, `close(fd)`,
`exit(EXIT_FAILURE)`. -/
def pcap_dump_fail (fd : Int) (w : DumpWorld) (trace : List DumpEvent) : DumpResult Unit :=
  ⟨none, w, trace ++ [.err "Cannot write pcap header", .close fd, .exit EXIT_FAILURE]⟩

/-- The record header `pcap_dump` fills in from the packet header. -/
def pcap_dump_sf_hdr (tp_h : tpacket_hdr) : pcap_sf_pkthdr :=
  { ts := { tv_sec := to_u32 tp_h.tp_sec, tv_usec := to_u32 tp_h.tp_usec }
    caplen := to_u32 tp_h.tp_snaplen
    len := to_u32 tp_h.tp_len }

/-- The function `pcap_dump(fd, tp_h, sp)`; `sp` holds the bytes readable from
the pointer `sp` on, `image` gives the bytes of a record header in memory, so
`sizeof(sf_hdr)` is the length of an image.  The second `write` is only made
when the first has returned `sizeof(sf_hdr)`. -/
def pcap_dump (image : pcap_sf_pkthdr → List Nat) (fd : Int) (tp_h : tpacket_hdr)
    (sp : List Nat) (w : DumpWorld) : DumpResult Unit :=
  let sf_hdr := pcap_dump_sf_hdr tp_h
  let sizeof_sf_hdr := (image sf_hdr).length
  let r1 := write fd (image sf_hdr) sizeof_sf_hdr w
  if r1.1 ≠ (sizeof_sf_hdr : Int) then
    pcap_dump_fail fd r1.2 [.write fd sizeof_sf_hdr r1.1]
  else
    let r2 := write fd sp sf_hdr.len r1.2
    if r2.1 ≠ (sf_hdr.len : Int) then
      pcap_dump_fail fd r2.2 [.write fd sizeof_sf_hdr r1.1, .write fd sf_hdr.len r2.1]
    else
      ⟨some (), r2.2, [.write fd sizeof_sf_hdr r1.1, .write fd sf_hdr.len r2.1]⟩

/-- The bytes a call appended to the file behind a descriptor. -/
def appended (fd : Int) (w w' : DumpWorld) : List Nat :=
  (w'.file fd).drop (w.file fd).length

/-! ### A concrete capture -/

/-- The four bytes of a 32-bit value, lowest first. -/
def le32 (x : Nat) : List Nat :=
  [x % 256, x / 256 % 256, x / 65536 % 256, x / 16777216 % 256]

/-- The record header as four 32-bit members in a row. -/
def le_image (h : pcap_sf_pkthdr) : List Nat :=
  le32 h.ts.tv_sec ++ le32 h.ts.tv_usec ++ le32 h.caplen ++ le32 h.len

/-- A world with empty files in which every `write` transfers all it is asked
for. -/
def open_world : DumpWorld where
  file := fun _ => []
  write_ret := fun _ _ count => count

/-- The header of a 1514-byte frame of which the kernel kept 96 bytes. -/
def cut_hdr : tpacket_hdr :=
  { tp_status := 1, tp_len := 1514, tp_snaplen := 96, tp_mac := 66, tp_net := 80,
    tp_sec := 1288000000, tp_usec := 250000 }

/-- The frame slot from the packet on: the 96 bytes kept, then what an earlier
packet left in the slot. -/
def cut_frame : List Nat :=
  List.replicate 96 170 ++ List.replicate 1886 85

end Dump

namespace Curvetun

open working_mode

/-! ## Basic facts about `Proc` -/

@[simp] theorem pure_run {α : Type} (a : α) (w : World) :
    (Pure.pure a : Proc α) w = ⟨.ret a, w, []⟩ := rfl

theorem bind_run {α β : Type} (x : Proc α) (f : α → Proc β) (w : World) :
    (x >>= f) w =
      match x w with
      | ⟨.ret a, w1, t1⟩ => ⟨(f a w1).out, (f a w1).w, t1 ++ (f a w1).trace⟩
      | ⟨.died, w1, t1⟩ => ⟨.died, w1, t1⟩ := rfl

theorem mode_exact_iff (m : Nat) :
    (S_ISREG m = true ∧ u32 m &&& compl32 S_IFREG = (S_IRUSR ||| S_IWUSR)) ↔
      u32 m = 0o100600 := by
  have hmod : u32 m = m &&& (2 ^ 32 - 1) := (Nat.and_pow_two_sub_one_eq_mod m 32).symm
  have hc : compl32 S_IFREG = 0xFFFF7FFF := by decide
  simp only [S_ISREG, beq_iff_eq, hc]
  constructor
  · rintro ⟨h1, h2⟩
    rw [hmod, Nat.and_assoc] at h2
    have h3 : (2 ^ 32 - 1) &&& 0xFFFF7FFF = 0xFFFF7FFF := by decide
    rw [h3] at h2
    have h4 : (2 ^ 32 - 1 : Nat) = 0xFFFF7FFF ||| S_IFMT := by decide
    rw [hmod, h4, Nat.and_or_distrib_left, h1, h2]
    decide
  · intro h
    constructor
    · have h5 : S_IFMT = (2 ^ 32 - 1) &&& S_IFMT := by decide
      rw [h5, ← Nat.and_assoc, ← hmod, h]
      decide
    · rw [h]
      decide

theorem check_file_or_die_out (w : World) (home file : String) (maybeempty : Int) :
    (check_file_or_die home file maybeempty w).out = .ret () ↔
      ∃ ino, w.fs (snprintf_path home file) = some ino ∧
        S_ISREG ino.st_mode = true ∧
        u32 ino.st_mode &&& compl32 S_IFREG = (S_IRUSR ||| S_IWUSR) ∧
        (ino.data.length ≠ 0 ∨ maybeempty ≠ 0) := by
  simp only [check_file_or_die, bind_run, stat]
  cases hfs : w.fs (snprintf_path home file) with
  | none => simp [panic]
  | some ino =>
    simp only [Option.map_some', Option.some.injEq, exists_eq_left']
    by_cases h1 : S_ISREG ino.st_mode = true
    · by_cases h2 : u32 ino.st_mode &&& compl32 S_IFREG = (S_IRUSR ||| S_IWUSR)
      · by_cases h3 : maybeempty = 0 ∧ ino.data.length = 0
        · simp [h1, h2, h3, panic]
        · have h4 : ino.data.length ≠ 0 ∨ maybeempty ≠ 0 := by
            by_cases h5 : maybeempty = 0
            · exact Or.inl fun h6 => h3 ⟨h5, h6⟩
            · exact Or.inr h5
          simp only [h1, h2, if_neg h3, h4]
          simp
      · simp [h1, h2, panic]
    · simp [h1, panic]

theorem bind_eq {α β : Type} (x : Proc α) (f : α → Proc β) (w : World) :
    (x >>= f) w =
      match (x w).out with
      | .ret a => ⟨(f a (x w).w).out, (f a (x w).w).w, (x w).trace ++ (f a (x w).w).trace⟩
      | .died => ⟨.died, (x w).w, (x w).trace⟩ := by
  rw [bind_run]
  rcases h : x w with ⟨o, w1, t1⟩
  cases o <;> rfl

theorem bind_of_ret {α β : Type} (x : Proc α) (f : α → Proc β) (w : World) (a : α)
    (h : (x w).out = .ret a) :
    (x >>= f) w = ⟨(f a (x w).w).out, (f a (x w).w).w, (x w).trace ++ (f a (x w).w).trace⟩ := by
  rw [bind_eq, h]

theorem bind_of_died {α β : Type} (x : Proc α) (f : α → Proc β) (w : World)
    (h : (x w).out = .died) :
    (x >>= f) w = ⟨.died, (x w).w, (x w).trace⟩ := by
  rw [bind_eq, h]

@[simp] theorem bind_out {α β : Type} (x : Proc α) (f : α → Proc β) (w : World) :
    ((x >>= f) w).out =
      match (x w).out with
      | .ret a => (f a (x w).w).out
      | .died => .died := by
  rw [bind_eq]; cases (x w).out <;> rfl

@[simp] theorem bind_w {α β : Type} (x : Proc α) (f : α → Proc β) (w : World) :
    ((x >>= f) w).w =
      match (x w).out with
      | .ret a => (f a (x w).w).w
      | .died => (x w).w := by
  rw [bind_eq]; cases (x w).out <;> rfl

@[simp] theorem bind_trace {α β : Type} (x : Proc α) (f : α → Proc β) (w : World) :
    ((x >>= f) w).trace =
      (x w).trace ++
        match (x w).out with
        | .ret a => (f a (x w).w).trace
        | .died => [] := by
  rw [bind_eq]; cases (x w).out <;> simp

@[simp] theorem getWorld_run (w : World) : getWorld w = ⟨.ret w, w, []⟩ := rfl

@[simp] theorem panic_run {α : Type} (msg : String) (w : World) :
    (panic msg : Proc α) w = ⟨.died, w, [.stderr msg]⟩ := rfl

@[simp] theorem die_run {α : Type} (w : World) : (die : Proc α) w = ⟨.died, w, []⟩ := rfl

@[simp] theorem emit_run (e : Event) (w : World) : emit e w = ⟨.ret (), w, [e]⟩ := rfl

@[simp] theorem open_rdonly_run (path : String) (w : World) :
    open_rdonly path w = ⟨.ret ((w.fs path).map fun i => i.data), w, [.open_ path .rdonly]⟩ := rfl


theorem uninit_length (w : World) (name : String) (n : Nat) : (uninit w name n).length = n := by
  simp [uninit]

theorem read_fst (fd buf : List Nat) (n : Nat) :
    (read fd buf n).1 = ((fd.take n).length : Int) := rfl

theorem read_buf (fd buf : List Nat) (n : Nat) :
    (read fd buf n).2.1 = fd.take n ++ buf.drop (fd.take n).length := rfl

theorem read_buf_length (fd buf : List Nat) (n : Nat) (hb : buf.length = n) :
    (read fd buf n).2.1.length = n := by
  simp only [read_buf, List.length_append, List.length_drop, List.length_take, hb]
  omega

theorem read_buf_full (fd buf : List Nat) (n : Nat) (hb : buf.length = n)
    (hr : (read fd buf n).1 = (n : Int)) : (read fd buf n).2.1 = fd.take n := by
  rw [read_fst] at hr
  have h : (fd.take n).length = n := by exact_mod_cast hr
  rw [read_buf, h, List.drop_of_length_le (by omega), List.append_nil]

theorem crypto_scalarmult_length (w : World) (n : List Nat) :
    (crypto_scalarmult_curve25519_base w n).length = 32 := by
  simp [crypto_scalarmult_curve25519_base]

theorem crypto_verify_32_eq_zero (x y : List Nat) :
    crypto_verify_32 x y = 0 ↔ x.take 32 = y.take 32 := by
  unfold crypto_verify_32
  split <;> simp_all

/-- What the body of `check_config_keypair_or_die` has established at `out`. -/
theorem check_config_keypair_to_out_spec (w : World) (home : String) :
    ∃ l, (check_config_keypair_to_out home w).out = .ret l ∧
      l.publickey.length = 32 ∧ l.publicres.length = 32 ∧ l.secretkey.length = 32 ∧
      (l.err = 0 ↔
        ∃ sk pk, w.fs (snprintf_path home FILE_PRIVKEY) = some sk ∧
          w.fs (snprintf_path home FILE_PUBKEY) = some pk ∧
          (sk.data.take 32).length = 32 ∧ (pk.data.take 32).length = 32 ∧
          crypto_verify_32 (crypto_scalarmult_curve25519_base w (sk.data.take 32))
            (pk.data.take 32) = 0) := by
  simp only [check_config_keypair_to_out, bind_out, bind_w, getWorld_run, open_rdonly_run]
  cases hsk : w.fs (snprintf_path home FILE_PRIVKEY) with
  | none => simp [uninit_length, PUBLICKEYBYTES, SECRETKEYBYTES, EIO]
  | some sk =>
    simp only [Option.map_some']
    split
    · rename_i h1
      refine ⟨_, rfl, ?_, ?_, ?_, ?_⟩
      · simp [uninit_length, PUBLICKEYBYTES]
      · simp [uninit_length, PUBLICKEYBYTES]
      · exact read_buf_length _ _ _ (uninit_length _ _ _)
      · simp only [ EIO]
        constructor
        · intro h; exact absurd h (by decide)
        · rintro ⟨sk', pk, h3, -, h4, -⟩
          cases h3
          exact absurd (by rw [read_fst, SECRETKEYBYTES, h4]) h1
    · rename_i h1
      have h1' : (read sk.data (uninit w "secretkey" SECRETKEYBYTES) SECRETKEYBYTES).1
          = (SECRETKEYBYTES : Int) := by simpa using h1
      have hbuf := read_buf_full _ _ _ (uninit_length w "secretkey" SECRETKEYBYTES) h1'
      have hlen : (sk.data.take 32).length = 32 := by
        rw [read_fst] at h1'; exact_mod_cast h1'
      simp only [bind_out, bind_w, open_rdonly_run]
      cases hpk : w.fs (snprintf_path home FILE_PUBKEY) with
      | none =>
        refine ⟨_, rfl, ?_, ?_, ?_, ?_⟩
        · simp [uninit_length, PUBLICKEYBYTES]
        · simp [uninit_length, PUBLICKEYBYTES]
        · exact read_buf_length _ _ _ (uninit_length _ _ _)
        · simp [ EIO]
      | some pk =>
        simp only [Option.map_some']
        split
        · rename_i h2
          refine ⟨_, rfl, ?_, ?_, ?_, ?_⟩
          · exact read_buf_length _ _ _ (uninit_length _ _ _)
          · simp [uninit_length, PUBLICKEYBYTES]
          · exact read_buf_length _ _ _ (uninit_length _ _ _)
          · simp only [ EIO]
            constructor
            · intro h; exact absurd h (by decide)
            · rintro ⟨sk', pk', -, h3, -, h4, -⟩
              cases h3
              exact absurd (by rw [read_fst, PUBLICKEYBYTES, h4]) h2
        · rename_i h2
          have h2' : (read pk.data (uninit w "publickey" PUBLICKEYBYTES) PUBLICKEYBYTES).1
              = (PUBLICKEYBYTES : Int) := by simpa using h2
          have hbuf2 := read_buf_full _ _ _ (uninit_length w "publickey" PUBLICKEYBYTES) h2'
          have hlen2 : (pk.data.take 32).length = 32 := by
            rw [read_fst] at h2'; exact_mod_cast h2'
          rw [hbuf, hbuf2]
          split
          · rename_i h3
            refine ⟨_, rfl, ?_, ?_, ?_, ?_⟩
            · simpa [PUBLICKEYBYTES] using hlen2
            · exact crypto_scalarmult_length _ _
            · simpa [SECRETKEYBYTES] using hlen
            · simp only [EINVAL]
              constructor
              · intro h; exact absurd h (by decide)
              · rintro ⟨sk', pk', h4, h5, -, -, h6⟩
                cases h4; cases h5
                exact absurd h6 h3
          · rename_i h3
            refine ⟨_, rfl, ?_, ?_, ?_, ?_⟩
            · simpa [PUBLICKEYBYTES] using hlen2
            · exact crypto_scalarmult_length _ _
            · simpa [SECRETKEYBYTES] using hlen
            · have h3' := not_not.mp h3
              exact ⟨fun _ => ⟨sk, pk, rfl, rfl, hlen, hlen2, h3'⟩, fun _ => h3'⟩


theorem check_config_keypair_to_out_w (w : World) (home : String) :
    (check_config_keypair_to_out home w).w = w := by
  simp only [check_config_keypair_to_out, bind_w, getWorld_run, open_rdonly_run]
  cases hsk : w.fs (snprintf_path home FILE_PRIVKEY) with
  | none => simp
  | some sk =>
    simp only [Option.map_some']
    split
    · simp
    · simp only [bind_w, open_rdonly_run]
      cases hpk : w.fs (snprintf_path home FILE_PUBKEY) with
      | none => simp
      | some pk =>
        simp only [Option.map_some']
        split
        · simp
        · split <;> simp

theorem check_config_keypair_wiped_out (w : World) (home : String) (l : KeypairLocals)
    (h : (check_config_keypair_to_out home w).out = .ret l) :
    (check_config_keypair_wiped home w).out = .ret { l with
      publickey := memset l.publickey 0 PUBLICKEYBYTES
      publicres := memset l.publicres 0 PUBLICKEYBYTES
      secretkey := memset l.secretkey 0 SECRETKEYBYTES } := by
  simp [check_config_keypair_wiped, h]

theorem check_config_keypair_wiped_w (w : World) (home : String) :
    (check_config_keypair_wiped home w).w = w := by
  obtain ⟨l, hl, -⟩ := check_config_keypair_to_out_spec w home
  simp [check_config_keypair_wiped, hl, check_config_keypair_to_out_w]

theorem check_config_keypair_or_die_w (w : World) (home : String) :
    (check_config_keypair_or_die home w).w = w := by
  obtain ⟨l, hl, -⟩ := check_config_keypair_to_out_spec w home
  have h2 := check_config_keypair_wiped_out w home l hl
  simp only [check_config_keypair_or_die, bind_w, h2, check_config_keypair_wiped_w]
  split <;> simp

theorem check_config_keypair_or_die_out (w : World) (home : String) :
    (check_config_keypair_or_die home w).out = .ret () ↔
      ∃ sk pk, w.fs (snprintf_path home FILE_PRIVKEY) = some sk ∧
        w.fs (snprintf_path home FILE_PUBKEY) = some pk ∧
        (sk.data.take 32).length = 32 ∧ (pk.data.take 32).length = 32 ∧
        crypto_verify_32 (crypto_scalarmult_curve25519_base w (sk.data.take 32))
          (pk.data.take 32) = 0 := by
  obtain ⟨l, hl, -, -, -, herr⟩ := check_config_keypair_to_out_spec w home
  have h2 := check_config_keypair_wiped_out w home l hl
  rw [← herr]
  simp only [check_config_keypair_or_die, bind_out, h2]
  by_cases h : l.err = 0 <;> simp [h]

theorem check_config_keypair_or_die_died (w : World) (home : String)
    (h : (check_config_keypair_or_die home w).out ≠ .ret ()) :
    (check_config_keypair_or_die home w).out = .died ∧
      ∃ msg, (check_config_keypair_or_die home w).trace.getLast? = some (.stderr msg) := by
  obtain ⟨l, hl, -⟩ := check_config_keypair_to_out_spec w home
  have h2 := check_config_keypair_wiped_out w home l hl
  simp only [check_config_keypair_or_die, bind_out, bind_trace, h2] at h ⊢
  by_cases h3 : l.err = 0
  · simp [h3] at h
  · simp [h3]


theorem stat_run (path : String) (w : World) :
    stat path w = ⟨.ret ((w.fs path).map fun i => ⟨i.st_mode, i.data.length⟩), w, [.stat path]⟩ :=
  rfl

theorem check_file_or_die_w (w : World) (home file : String) (maybeempty : Int) :
    (check_file_or_die home file maybeempty w).w = w := by
  simp only [check_file_or_die, bind_w, stat_run]
  cases w.fs (snprintf_path home file) with
  | none => simp
  | some ino =>
    simp only [Option.map_some']
    repeat' split
    all_goals simp

theorem check_file_or_die_trace (w : World) (home file : String) (maybeempty : Int) :
    ((check_file_or_die home file maybeempty w).out = .ret () ∧
      (check_file_or_die home file maybeempty w).trace = [.stat (snprintf_path home file)]) ∨
    ((check_file_or_die home file maybeempty w).out = .died ∧
      ∃ msg, (check_file_or_die home file maybeempty w).trace =
        [.stat (snprintf_path home file), .stderr msg]) := by
  simp only [check_file_or_die, bind_w, bind_out, bind_trace, stat_run]
  cases w.fs (snprintf_path home file) with
  | none => simp
  | some ino =>
    simp only [Option.map_some']
    repeat' split
    all_goals simp

theorem seq_out_iff {β : Type} (x : Proc Unit) (y : Proc β) (w : World) (b : β)
    (hw : (x w).w = w) :
    ((x >>= fun _ => y) w).out = .ret b ↔ (x w).out = .ret () ∧ (y w).out = .ret b := by
  rw [bind_out, hw]
  cases (x w).out <;> simp

theorem seq_w {β : Type} (x : Proc Unit) (y : Proc β) (w : World)
    (hx : (x w).w = w) (hy : (y w).w = w) : ((x >>= fun _ => y) w).w = w := by
  rw [bind_w, hx]
  cases (x w).out <;> simp [hx, hy]

theorem check_config_exists_or_die_out (w : World) (home : String) :
    (check_config_exists_or_die (some home) w).out = .ret () ↔
      (check_file_or_die home FILE_CLIENTS 1 w).out = .ret () ∧
      (check_file_or_die home FILE_SERVERS 1 w).out = .ret () ∧
      (check_file_or_die home FILE_PRIVKEY 0 w).out = .ret () ∧
      (check_file_or_die home FILE_PUBKEY 0 w).out = .ret () ∧
      (check_file_or_die home FILE_USERNAM 0 w).out = .ret () ∧
      (check_file_or_die home FILE_TOKEN 0 w).out = .ret () := by
  simp only [check_config_exists_or_die]
  rw [seq_out_iff _ _ _ _ (check_file_or_die_w _ _ _ _),
    seq_out_iff _ _ _ _ (check_file_or_die_w _ _ _ _),
    seq_out_iff _ _ _ _ (check_file_or_die_w _ _ _ _),
    seq_out_iff _ _ _ _ (check_file_or_die_w _ _ _ _),
    seq_out_iff _ _ _ _ (check_file_or_die_w _ _ _ _)]

theorem check_config_exists_or_die_w (w : World) (home : Option String) :
    (check_config_exists_or_die home w).w = w := by
  cases home with
  | none => rfl
  | some home =>
    simp only [check_config_exists_or_die]
    exact seq_w _ _ _ (check_file_or_die_w _ _ _ _) <|
      seq_w _ _ _ (check_file_or_die_w _ _ _ _) <|
      seq_w _ _ _ (check_file_or_die_w _ _ _ _) <|
      seq_w _ _ _ (check_file_or_die_w _ _ _ _) <|
      seq_w _ _ _ (check_file_or_die_w _ _ _ _) (check_file_or_die_w _ _ _ _)

/-- A file passes `check_file_or_die` exactly when it is a regular file of mode
0600 that is not empty, unless it may be. -/
theorem check_file_or_die_mode (w : World) (home file : String) (maybeempty : Int) :
    (check_file_or_die home file maybeempty w).out = .ret () ↔
      ∃ ino, w.fs (snprintf_path home file) = some ino ∧ u32 ino.st_mode = 0o100600 ∧
        (ino.data.length ≠ 0 ∨ maybeempty ≠ 0) := by
  rw [check_file_or_die_out]
  constructor
  · rintro ⟨ino, h1, h2, h3, h4⟩
    exact ⟨ino, h1, (mode_exact_iff _).mp ⟨h2, h3⟩, h4⟩
  · rintro ⟨ino, h1, h2, h4⟩
    have h := (mode_exact_iff _).mpr h2
    exact ⟨ino, h1, h.1, h.2, h4⟩

/-- C1: `check_config_keypair_or_die` returns exactly when both key files can be
opened, each read yields 32 bytes and the public key read is the base-point
multiple of the secret key read, that is `crypto_verify_32` of the two is 0;
in every other case the process dies right after the message of a `panic`. -/
theorem check_config_keypair_or_die_returns_iff (w : World) (home : String) :
    ((check_config_keypair_or_die home w).out = .ret () ↔
      ∃ sk pk, w.fs (snprintf_path home FILE_PRIVKEY) = some sk ∧
        w.fs (snprintf_path home FILE_PUBKEY) = some pk ∧
        (read sk.data (uninit w "secretkey" SECRETKEYBYTES) SECRETKEYBYTES).1 = 32 ∧
        (read pk.data (uninit w "publickey" PUBLICKEYBYTES) PUBLICKEYBYTES).1 = 32 ∧
        pk.data.take 32 = crypto_scalarmult_curve25519_base w (sk.data.take 32) ∧
        crypto_verify_32 (crypto_scalarmult_curve25519_base w (sk.data.take 32))
          (pk.data.take 32) = 0) ∧
    ((check_config_keypair_or_die home w).out = .ret () ∨
      ((check_config_keypair_or_die home w).out = .died ∧
        ∃ msg, (check_config_keypair_or_die home w).trace.getLast? = some (.stderr msg))) := by
  constructor
  · rw [check_config_keypair_or_die_out]
    constructor
    · rintro ⟨sk, pk, h1, h2, h3, h4, h5⟩
      refine ⟨sk, pk, h1, h2, ?_, ?_, ?_, h5⟩
      · rw [read_fst, SECRETKEYBYTES, h3]; rfl
      · rw [read_fst, PUBLICKEYBYTES, h4]; rfl
      · have h6 := (crypto_verify_32_eq_zero _ _).mp h5
        rw [List.take_of_length_le (le_of_eq (crypto_scalarmult_length _ _)),
          List.take_take] at h6
        simpa using h6.symm
    · rintro ⟨sk, pk, h1, h2, h3, h4, -, h5⟩
      refine ⟨sk, pk, h1, h2, ?_, ?_, h5⟩
      · rw [read_fst, SECRETKEYBYTES] at h3; exact_mod_cast h3
      · rw [read_fst, PUBLICKEYBYTES] at h4; exact_mod_cast h4
  · by_cases h : (check_config_keypair_or_die home w).out = .ret ()
    · exact Or.inl h
    · exact Or.inr (check_config_keypair_or_die_died w home h)

/-- C5: `check_file_or_die` accepts a file exactly when the path exists, is a
regular file, its mode without the regular-file bit is 0600 and it is not empty
or `maybeempty` is non-zero; in other words when its mode is exactly 0100600.
A file whose permission bits are not 0600, so any file with more of them set,
is rejected by a `panic`. -/
theorem check_file_or_die_accepts_iff (w : World) (home file : String) (maybeempty : Int) :
    ((check_file_or_die home file maybeempty w).out = .ret () ↔
      ∃ ino, w.fs (snprintf_path home file) = some ino ∧
        S_ISREG ino.st_mode = true ∧
        u32 ino.st_mode &&& compl32 S_IFREG = (S_IRUSR ||| S_IWUSR) ∧
        (ino.data.length ≠ 0 ∨ maybeempty ≠ 0)) ∧
    ((check_file_or_die home file maybeempty w).out = .ret () ↔
      ∃ ino, w.fs (snprintf_path home file) = some ino ∧ u32 ino.st_mode = 0o100600 ∧
        (ino.data.length ≠ 0 ∨ maybeempty ≠ 0)) ∧
    (∀ ino, w.fs (snprintf_path home file) = some ino → u32 ino.st_mode &&& 0o7777 ≠ 0o600 →
      (check_file_or_die home file maybeempty w).out = .died ∧
        ∃ msg, (check_file_or_die home file maybeempty w).trace.getLast? = some (.stderr msg)) := by
  refine ⟨check_file_or_die_out w home file maybeempty,
    check_file_or_die_mode w home file maybeempty, ?_⟩
  intro ino hfs hperm
  have hne : (check_file_or_die home file maybeempty w).out ≠ .ret () := by
    intro hret
    obtain ⟨ino', h1, h2, -⟩ := (check_file_or_die_mode w home file maybeempty).mp hret
    rw [hfs] at h1
    cases h1
    rw [h2] at hperm
    exact hperm (by decide)
  rcases check_file_or_die_trace w home file maybeempty with ⟨h, -⟩ | ⟨h, msg, ht⟩
  · exact absurd h hne
  · exact ⟨h, msg, by rw [ht]; rfl⟩

/-- The run C5 is shown on: a public key of mode 0644 is refused. -/
theorem check_file_or_die_accepts_iff_witness :
    demo_world.fs (snprintf_path "/home/u" FILE_PUBKEY) = some ⟨0o100600, List.replicate 32 8⟩ ∧
    (check_file_or_die "/home/u" FILE_PUBKEY 0 demo_world).out = .ret () ∧
    (check_file_or_die "/home/u" FILE_PUBKEY 0 lax_world).out = .died :=
  ⟨by decide,
    (check_file_or_die_accepts_iff demo_world "/home/u" FILE_PUBKEY 0).2.1.mpr
      ⟨⟨0o100600, List.replicate 32 8⟩, by decide, by decide, by decide⟩,
    ((check_file_or_die_accepts_iff lax_world "/home/u" FILE_PUBKEY 0).2.2
      ⟨0o100644, List.replicate 32 8⟩ (by decide) (by decide)).1⟩

theorem info_run (msg : String) (w : World) : info msg w = ⟨.ret (), w, [.info msg]⟩ := rfl

theorem printf_run (text : String) (w : World) : printf text w = ⟨.ret (), w, [.stdout text]⟩ :=
  rfl

theorem open_or_die_run (path : String) (w : World) :
    open_or_die path w =
      match w.fs path with
      | some i => ⟨.ret i.data, w, [.open_ path .rdonly]⟩
      | none => ⟨.died, w, [.open_ path .rdonly, .stderr ("Cannot open file " ++ path ++ "!\n")]⟩ := by
  rw [open_or_die, bind_eq, open_rdonly_run]
  cases w.fs path <;> rfl

theorem open_creat_out (path : String) (trunc : Bool) (mode : Nat) (w : World) :
    (open_creat path trunc mode w).out = .ret (!w.creat_fails path) := by
  unfold open_creat
  cases w.creat_fails path <;> cases w.fs path <;> rfl

theorem open_creat_env (path : String) (trunc : Bool) (mode : Nat) (w : World) :
    (open_creat path trunc mode w).w.env = w.env ∧
      (open_creat path trunc mode w).w.entropy = w.entropy := by
  unfold open_creat
  cases w.creat_fails path <;> cases w.fs path <;> exact ⟨rfl, rfl⟩

theorem env_fields (w w1 : World) (h : w1.env = w.env) :
    w1.creat_fails = w.creat_fails ∧ w1.write_ret = w.write_ret ∧
      w1.scalarmult_base = w.scalarmult_base ∧ w1.stack = w.stack ∧ w1.umask = w.umask := by
  have h1 := congrArg World.creat_fails h
  have h2 := congrArg World.write_ret h
  have h3 := congrArg World.scalarmult_base h
  have h4 := congrArg World.stack h
  have h5 := congrArg World.umask h
  exact ⟨h1, h2, h3, h4, h5⟩

theorem open_or_die_w (path : String) (w : World) : (open_or_die path w).w = w := by
  rw [open_or_die_run]; cases w.fs path <;> rfl

theorem seq_trace_forall {α β : Type} (P : Event → Prop) (x : Proc α) (f : α → Proc β)
    (w : World) (hx : ∀ e ∈ (x w).trace, P e)
    (hf : ∀ a w1, ∀ e ∈ (f a w1).trace, P e) : ∀ e ∈ ((x >>= f) w).trace, P e := by
  intro e he
  rw [bind_trace, List.mem_append] at he
  rcases he with he | he
  · exact hx e he
  · cases h : (x w).out with
    | ret a => rw [h] at he; exact hf a _ e he
    | died => rw [h] at he; simp at he

theorem check_file_or_die_probe (home file : String) (maybeempty : Int) (w : World) :
    ∀ e ∈ (check_file_or_die home file maybeempty w).trace, e.is_probe = true := by
  intro e he
  rcases check_file_or_die_trace w home file maybeempty with ⟨-, ht⟩ | ⟨-, msg, ht⟩
  · rw [ht] at he
    simp only [List.mem_singleton] at he
    subst he; rfl
  · rw [ht] at he
    simp only [List.mem_cons, List.mem_singleton, List.not_mem_nil, or_false] at he
    rcases he with he | he <;> subst he <;> rfl

theorem check_config_exists_or_die_probe (home : Option String) (w : World) :
    ∀ e ∈ (check_config_exists_or_die home w).trace, e.is_probe = true := by
  cases home with
  | none =>
    intro e he
    simp only [check_config_exists_or_die, panic_run, List.mem_singleton] at he
    subst he; rfl
  | some home =>
    simp only [check_config_exists_or_die]
    refine seq_trace_forall _ _ _ w (check_file_or_die_probe _ _ _ _) fun _ w1 => ?_
    refine seq_trace_forall _ _ _ w1 (check_file_or_die_probe _ _ _ _) fun _ w2 => ?_
    refine seq_trace_forall _ _ _ w2 (check_file_or_die_probe _ _ _ _) fun _ w3 => ?_
    refine seq_trace_forall _ _ _ w3 (check_file_or_die_probe _ _ _ _) fun _ w4 => ?_
    refine seq_trace_forall _ _ _ w4 (check_file_or_die_probe _ _ _ _) fun _ w5 => ?_
    exact check_file_or_die_probe _ _ _ _

theorem check_config_keypair_to_out_probe (home : String) (w : World) :
    ∀ e ∈ (check_config_keypair_to_out home w).trace, e.is_probe = true := by
  simp only [check_config_keypair_to_out, bind_trace, bind_out, bind_w, getWorld_run,
    open_rdonly_run]
  cases hsk : w.fs (snprintf_path home FILE_PRIVKEY) with
  | none => simp [Event.is_probe]
  | some sk =>
    simp only [Option.map_some']
    split
    · simp [Event.is_probe]
    · simp only [bind_trace, bind_out, bind_w, open_rdonly_run]
      cases hpk : w.fs (snprintf_path home FILE_PUBKEY) with
      | none => simp [Event.is_probe]
      | some pk =>
        simp only [Option.map_some']
        split
        · simp [Event.is_probe]
        · split <;> simp [Event.is_probe]

theorem check_config_keypair_or_die_probe (home : String) (w : World) :
    ∀ e ∈ (check_config_keypair_or_die home w).trace, e.is_probe = true := by
  obtain ⟨l, hl, -⟩ := check_config_keypair_to_out_spec w home
  have h2 := check_config_keypair_wiped_out w home l hl
  have h3 : (check_config_keypair_wiped home w).trace = (check_config_keypair_to_out home w).trace := by
    simp [check_config_keypair_wiped, hl]
  intro e he
  simp only [check_config_keypair_or_die, bind_trace, h2, h3, List.mem_append] at he
  rcases he with he | he
  · exact check_config_keypair_to_out_probe home w e he
  · split at he
    · simp only [panic_run, List.mem_singleton] at he
      subst he; rfl
    · simp at he

/-- A function that starts with the two checks goes on only when both return;
otherwise it dies having made only the calls of the checks. -/
theorem checks_then {α : Type} (home : String) (rest : Proc α) (w : World) :
    (checks_pass w home →
      ((check_config_exists_or_die (some home) >>= fun _ =>
          check_config_keypair_or_die home >>= fun _ => rest) w).trace =
        (check_config_exists_or_die (some home) w).trace ++
          ((check_config_keypair_or_die home w).trace ++ (rest w).trace)) ∧
    (¬ checks_pass w home →
      ((check_config_exists_or_die (some home) >>= fun _ =>
          check_config_keypair_or_die home >>= fun _ => rest) w).out = .died ∧
      ((check_config_exists_or_die (some home) >>= fun _ =>
          check_config_keypair_or_die home >>= fun _ => rest) w).w = w ∧
      ∀ e ∈ ((check_config_exists_or_die (some home) >>= fun _ =>
          check_config_keypair_or_die home >>= fun _ => rest) w).trace, e.is_probe = true) := by
  have hw1 := check_config_exists_or_die_w w (some home)
  have hw2 := check_config_keypair_or_die_w w home
  have hp1 := check_config_exists_or_die_probe (some home) w
  have hp2 := check_config_keypair_or_die_probe home w
  unfold checks_pass
  cases h1 : (check_config_exists_or_die (some home) w).out with
  | died =>
    refine ⟨fun h => absurd h.1 (by simp), fun _ => ?_⟩
    simp only [bind_out, bind_w, bind_trace, h1, List.append_nil]
    exact ⟨trivial, hw1, hp1⟩
  | ret u =>
    cases h2 : (check_config_keypair_or_die home w).out with
    | died =>
      refine ⟨fun h => absurd h.2 (by simp), fun _ => ?_⟩
      simp only [bind_out, bind_w, bind_trace, h1, hw1, h2, List.append_nil]
      refine ⟨trivial, hw2, ?_⟩
      intro e he
      rcases List.mem_append.mp he with he | he
      · exact hp1 e he
      · exact hp2 e he
    | ret u2 =>
      refine ⟨fun _ => ?_, fun h => absurd ⟨rfl, rfl⟩ h⟩
      simp only [bind_trace, bind_w, h1, hw1, h2, hw2]

/-- C2: the trace of `main_client` holds a call of `client_main`, and that of
`main_server` a call of `server_main`, only in worlds where
`check_config_exists_or_die` and `check_config_keypair_or_die` both return, and
then the calls of the two checks come first.  When a check fails, either mode
function dies, leaves the world as it found it (no lockfile), and has made no
call but `stat`, read-only `open` and the message of the `panic`: neither
engine is started and nothing of `daemonize` has run. -/
theorem engine_only_after_checks (w : World) (home : String) (dev alias_ : Option String)
    (port : String) (udp ipv4 daemon : Int) :
    ((∃ h d ho p u, Event.client_main h d ho p u ∈ (main_client home dev alias_ daemon w).trace) →
      checks_pass w home) ∧
    ((∃ h d p u i, Event.server_main h d p u i ∈
        (main_server home dev port udp ipv4 daemon w).trace) → checks_pass w home) ∧
    (checks_pass w home →
      (∃ rest, (main_client home dev alias_ daemon w).trace =
        (check_config_exists_or_die (some home) w).trace ++
          ((check_config_keypair_or_die home w).trace ++ rest)) ∧
      (∃ rest, (main_server home dev port udp ipv4 daemon w).trace =
        (check_config_exists_or_die (some home) w).trace ++
          ((check_config_keypair_or_die home w).trace ++ rest))) ∧
    (¬ checks_pass w home →
      ((main_client home dev alias_ daemon w).out = .died ∧
        (main_client home dev alias_ daemon w).w = w ∧
        ∀ e ∈ (main_client home dev alias_ daemon w).trace, e.is_probe = true) ∧
      ((main_server home dev port udp ipv4 daemon w).out = .died ∧
        (main_server home dev port udp ipv4 daemon w).w = w ∧
        ∀ e ∈ (main_server home dev port udp ipv4 daemon w).trace, e.is_probe = true)) := by
  have hc := @checks_then Int home
  have hcl : ¬ checks_pass w home →
      ((main_client home dev alias_ daemon w).out = .died ∧
        (main_client home dev alias_ daemon w).w = w ∧
        ∀ e ∈ (main_client home dev alias_ daemon w).trace, e.is_probe = true) := by
    intro h
    unfold main_client
    exact (hc _ w).2 h
  have hsv : ¬ checks_pass w home →
      ((main_server home dev port udp ipv4 daemon w).out = .died ∧
        (main_server home dev port udp ipv4 daemon w).w = w ∧
        ∀ e ∈ (main_server home dev port udp ipv4 daemon w).trace, e.is_probe = true) := by
    intro h
    unfold main_server
    exact (hc _ w).2 h
  refine ⟨?_, ?_, ?_, fun h => ⟨hcl h, hsv h⟩⟩
  · rintro ⟨h, d, ho, p, u, he⟩
    by_contra hn
    have := (hcl hn).2.2 _ he
    simp [Event.is_probe] at this
  · rintro ⟨h, d, p, u, i, he⟩
    by_contra hn
    have := (hsv hn).2.2 _ he
    simp [Event.is_probe] at this
  · intro h
    constructor
    · unfold main_client
      exact ⟨_, (hc _ w).1 h⟩
    · unfold main_server
      exact ⟨_, (hc _ w).1 h⟩

/-- The runs C2 is shown on: with the configuration of `demo_world` the server
engine is started; with a public key of mode 0644 it is not, and the lockfile
is not there afterwards. -/
theorem engine_only_after_checks_witness :
    checks_pass demo_world "/home/u" ∧ ¬ checks_pass lax_world "/home/u" ∧
    Event.server_main "/home/u" none "6666" 0 (-1) ∈
      (main_server "/home/u" none "6666" 0 (-1) 1 demo_world).trace ∧
    (main_server "/home/u" none "6666" 0 (-1) 1 lax_world).out = .died ∧
    (main_server "/home/u" none "6666" 0 (-1) 1 lax_world).w.fs LOCKFILE = none :=
  ⟨by decide, by decide, by decide,
    ((engine_only_after_checks lax_world "/home/u" none none "6666" 0 (-1) 1).2.2.2
      (by decide)).2.1,
    by rw [((engine_only_after_checks lax_world "/home/u" none none "6666" 0 (-1) 1).2.2.2
      (by decide)).2.2.1]; decide⟩

theorem checks_then_eq {α : Type} (home : String) (rest : Proc α) (w : World)
    (h : checks_pass w home) :
    (check_config_exists_or_die (some home) >>= fun _ =>
        check_config_keypair_or_die home >>= fun _ => rest) w =
      ⟨(rest w).out, (rest w).w,
        (check_config_exists_or_die (some home) w).trace ++
          ((check_config_keypair_or_die home w).trace ++ (rest w).trace)⟩ := by
  have hw1 := check_config_exists_or_die_w w (some home)
  have hw2 := check_config_keypair_or_die_w w home
  rw [bind_eq, h.1]
  simp only [bind_out, bind_w, bind_trace, hw1, hw2, h.2]

theorem daemonize_none_run (w : World) :
    (daemonize none w).out = (if w.ppid = 1 ∨ w.daemon_ret = 0 then .ret () else .died) ∧
    (daemonize none w).trace =
      (if w.ppid = 1 then []
       else if w.daemon_ret = 0 then [.daemon, .umask (S_IRWXU ||| S_IRGRP ||| S_IXGRP)]
       else [.daemon, .stderr "Cannot daemonize"]) ∧
    (daemonize none w).w.client_main_ret = w.client_main_ret := by
  simp only [daemonize, bind_out, bind_trace, bind_w, getWorld_run]
  by_cases h1 : w.ppid = 1
  · simp [h1]
  · by_cases h2 : w.daemon_ret = 0
    · simp [h1, h2, daemon, umask]
    · simp [h1, h2, daemon]

theorem filter_probe_nil (p : Event → Bool) (t : List Event)
    (ht : ∀ e ∈ t, e.is_probe = true) (hp : ∀ e, e.is_probe = true → p e = false) :
    t.filter p = [] := by
  rw [List.filter_eq_nil_iff]
  intro e he
  rw [hp e (ht e he)]
  simp

theorem checks_trace_probe (home : String) (w : World) :
    ∀ e ∈ (check_config_exists_or_die (some home) w).trace ++
      (check_config_keypair_or_die home w).trace, e.is_probe = true := by
  intro e he
  rcases List.mem_append.mp he with he | he
  · exact check_config_exists_or_die_probe _ w e he
  · exact check_config_keypair_or_die_probe _ w e he

/-- C7: in a world where the two checks and the parser of the server store
return, `main_client` looks the server up once, with the alias and its length
plus one, or with a null alias and length 0.  When the lookup gives no host, no
port or a negative transport, `main_client` dies on the `panic` without a call
of `daemon` or `client_main`.  Otherwise it calls `client_main` at most once, with
the home directory, the device and exactly the host, port and transport of the
lookup, and the call is made and its value returned unless the `daemonize` in
between, when asked for, ends the process. -/
theorem main_client_lookup (w : World) (home : String) (dev alias_ : Option String)
    (daemon : Int) (hpass : checks_pass w home) (hparse : w.parse_serv_ok = true)
    (host port : Option String) (udp : Int)
    (hl : w.serv_lookup alias_ (alias_len alias_) = (host, port, udp)) :
    (main_client home dev alias_ daemon w).trace.filter Event.is_lookup =
      [.get_serv_store_entry_by_alias alias_ (alias_len alias_)] ∧
    alias_len none = 0 ∧ (∀ a : String, alias_len (some a) = a.length + 1) ∧
    (host = none ∨ port = none ∨ udp < 0 →
      (main_client home dev alias_ daemon w).out = .died ∧
      (main_client home dev alias_ daemon w).trace.getLast? =
        some (.stderr "Did not find alias/entry in configuration!\n") ∧
      Event.daemon ∉ (main_client home dev alias_ daemon w).trace ∧
      (main_client home dev alias_ daemon w).trace.filter Event.is_client_main = []) ∧
    (∀ h p, host = some h → port = some p → 0 ≤ udp →
      ((main_client home dev alias_ daemon w).trace.filter Event.is_client_main = [] ∨
        (main_client home dev alias_ daemon w).trace.filter Event.is_client_main =
          [.client_main home dev h p udp]) ∧
      ((daemon ≠ 0 → (daemonize none w).out = .ret ()) →
        (main_client home dev alias_ daemon w).out = .ret w.client_main_ret ∧
        Event.client_main home dev h p udp ∈ (main_client home dev alias_ daemon w).trace)) := by
  have hpr := checks_trace_probe home w
  have hf1 := filter_probe_nil Event.is_lookup _ hpr (by intro e; cases e <;> simp [Event.is_probe, Event.is_lookup])
  have hf2 := filter_probe_nil Event.is_client_main _ hpr (by intro e; cases e <;> simp [Event.is_probe, Event.is_client_main])
  obtain ⟨hd1, hd2, hd3⟩ := daemonize_none_run w
  have hnd : Event.daemon ∉ (check_config_exists_or_die (some home) w).trace ++
      (check_config_keypair_or_die home w).trace := fun hm => by
    have := hpr _ hm
    simp [Event.is_probe] at this
  have hnc : ∀ e ∈ (check_config_exists_or_die (some home) w).trace ++
      (check_config_keypair_or_die home w).trace, e.is_client_main = true → False := by
    intro e he hc
    have := hpr e he
    cases e <;> simp [Event.is_probe, Event.is_client_main] at this hc
  unfold main_client
  rw [checks_then_eq home _ w hpass]
  simp only [bind_out, bind_trace, bind_w, parse_userfile_and_generate_serv_store_or_die,
    get_serv_store_entry_by_alias, hparse, hl, ↓reduceIte, ← List.append_assoc,
    List.filter_append, hf1, hf2, List.nil_append]
  refine ⟨?_, rfl, fun _ => rfl, ?_, ?_⟩
  · rcases host with _ | h <;> rcases port with _ | p <;> by_cases hu : udp < 0 <;>
      by_cases hdm : daemon = 0 <;> by_cases hp1 : w.ppid = 1 <;>
      by_cases hr : w.daemon_ret = 0 <;>
      simp [hu, hdm, hp1, hr, hd1, hd2, Event.is_lookup, client_main, printf_run]
  · rintro (hh | hh | hh)
    · subst hh
      simpa [Event.is_client_main] using hnd
    · subst hh
      rcases host with _ | h <;> simpa [Event.is_client_main] using hnd
    · rcases host with _ | h <;> rcases port with _ | p <;>
        simpa [hh, Event.is_client_main] using hnd
  · intro h p hh hp hu
    subst hh hp
    have hu' : ¬ udp < 0 := not_lt.mpr hu
    by_cases hdm : daemon = 0 <;> by_cases hp1 : w.ppid = 1 <;>
      by_cases hr : w.daemon_ret = 0 <;>
      simp [hu', hdm, hp1, hr, hd1, hd2, hd3, Event.is_client_main, client_main, printf_run]

/-- The run C7 is shown on: with the alias `home` the store of `demo_world` is
asked for `home` and length 5, and `client_main` gets the endpoint it answers. -/
theorem main_client_lookup_witness :
    checks_pass demo_world "/home/u" ∧ demo_world.parse_serv_ok = true ∧
    demo_world.serv_lookup (some "home") (alias_len (some "home")) =
      (some "10.0.0.1", some "6666", 1) ∧
    (main_client "/home/u" none (some "home") 1 demo_world).trace.filter Event.is_lookup =
      [.get_serv_store_entry_by_alias (some "home") 5] ∧
    (main_client "/home/u" none (some "home") 1 demo_world).out = .ret 0 ∧
    Event.client_main "/home/u" none "10.0.0.1" "6666" 1 ∈
      (main_client "/home/u" none (some "home") 1 demo_world).trace :=
  ⟨by decide, rfl, rfl,
    (main_client_lookup demo_world "/home/u" none (some "home") 1 (by decide) rfl
      (some "10.0.0.1") (some "6666") 1 rfl).1,
    ((main_client_lookup demo_world "/home/u" none (some "home") 1 (by decide) rfl
      (some "10.0.0.1") (some "6666") 1 rfl).2.2.2.2 "10.0.0.1" "6666" rfl rfl
        (by decide)).2 (fun _ => by decide)⟩

theorem last_opt_cons (p : Getopt → Bool) (g : Getopt) (gs : List Getopt) :
    last_opt p (g :: gs) = (last_opt p gs).or (if p g then some g else none) := by
  simp only [last_opt, List.reverse_cons, List.find?_append, List.find?_cons, List.find?_nil]
  cases p g <;> rfl

theorem last_opt_nil (p : Getopt → Bool) : last_opt p [] = none := rfl

/-- One pass through the `switch` on an option that does not end the run. -/
theorem main_switch_ret (g : Getopt) (l : MainLocals) (w : World) (h : g.stops = false) :
    ∃ l1, main_switch g l w = ⟨.ret l1, w, []⟩ ∧
      l1.udp = (if g.c = 'u' then 1 else l.udp) ∧
      l1.ipv4 = (if g.c = '4' then 1 else if g.c = '6' then 0 else l.ipv4) ∧
      l1.daemon = (if g.c = 'D' then 0 else l.daemon) ∧
      l1.port = (if g.c = 'p' then g.optarg else l.port) ∧
      l1.stun = (if g.c = 't' then g.optarg else l.stun) ∧
      l1.dev = (if g.c = 'd' then g.optarg else l.dev) ∧
      l1.alias_ = (if g.c = 'c' ∧ g.optarg.isSome then
        g.optarg.map fun a => if a.data.head? = some '=' then ⟨a.data.tail⟩ else a
        else l.alias_) ∧
      l1.wmode = (mode_of_char g.c).getD l.wmode := by
  simp only [Getopt.stops, Bool.or_eq_false_iff, Bool.and_eq_false_iff, decide_eq_false_iff_not,
    Bool.or_eq_true, decide_eq_true_eq, Option.isNone_iff_eq_none] at h
  obtain ⟨⟨⟨⟨h1, h2⟩, h3⟩, h4⟩, h5⟩ := h
  rcases g with ⟨c, optarg, optopt⟩
  simp only at h1 h2 h3 h4 h5 ⊢
  unfold main_switch
  simp only
  rw [if_neg h1, if_neg h2, if_neg h3]
  by_cases hcD : c = 'D'
  · subst hcD
    exact ⟨_, rfl, by simp [mode_of_char]⟩
  rw [if_neg hcD]
  by_cases hcC : c = 'C'
  · subst hcC
    exact ⟨_, rfl, by simp [mode_of_char]⟩
  rw [if_neg hcC]
  by_cases hcS : c = 'S'
  · subst hcS
    exact ⟨_, rfl, by simp [mode_of_char]⟩
  rw [if_neg hcS]
  by_cases hcA : c = 'A'
  · subst hcA
    exact ⟨_, rfl, by simp [mode_of_char]⟩
  rw [if_neg hcA]
  by_cases hcc : c = 'c'
  · subst hcc
    rcases optarg with _ | a
    · exact ⟨_, rfl, by simp [mode_of_char]⟩
    · exact ⟨_, rfl, by simp [mode_of_char]⟩
  rw [if_neg hcc]
  by_cases hcd : c = 'd'
  · subst hcd
    rcases optarg with _ | a
    · simp at h5
    · exact ⟨_, rfl, by simp [mode_of_char]⟩
  rw [if_neg hcd]
  by_cases hck : c = 'k'
  · subst hck
    exact ⟨_, rfl, by simp [mode_of_char]⟩
  rw [if_neg hck]
  by_cases hcfour : c = '4'
  · subst hcfour
    exact ⟨_, rfl, by simp [mode_of_char]⟩
  rw [if_neg hcfour]
  by_cases hcsix : c = '6'
  · subst hcsix
    exact ⟨_, rfl, by simp [mode_of_char]⟩
  rw [if_neg hcsix]
  by_cases hcx : c = 'x'
  · subst hcx
    exact ⟨_, rfl, by simp [mode_of_char]⟩
  rw [if_neg hcx]
  by_cases hcs : c = 's'
  · subst hcs
    exact ⟨_, rfl, by simp [mode_of_char]⟩
  rw [if_neg hcs]
  by_cases hcu : c = 'u'
  · subst hcu
    exact ⟨_, rfl, by simp [mode_of_char]⟩
  rw [if_neg hcu]
  by_cases hct : c = 't'
  · subst hct
    rcases optarg with _ | a
    · simp at h5
    · exact ⟨_, rfl, by simp [mode_of_char]⟩
  rw [if_neg hct]
  by_cases hcp : c = 'p'
  · subst hcp
    rcases optarg with _ | a
    · simp at h5
    · exact ⟨_, rfl, by simp [mode_of_char]⟩
  rw [if_neg hcp]
  rw [if_neg h4]
  exact ⟨_, rfl, by simp_all [mode_of_char]⟩

/-- One pass through the `switch` on an option that ends the run. -/
theorem main_switch_stops (g : Getopt) (l : MainLocals) (w : World) (h : g.stops = true) :
    (main_switch g l w).out = .died ∧ (main_switch g l w).w = w ∧
      ∀ e ∈ (main_switch g l w).trace, e.is_startup = true := by
  rcases g with ⟨c, optarg, optopt⟩
  simp only [Getopt.stops, Bool.or_eq_true, decide_eq_true_eq, Bool.and_eq_true,
    Option.isNone_iff_eq_none] at h
  unfold main_switch
  simp only
  by_cases h1 : c = 'h'
  · subst h1
    exact ⟨rfl, rfl, by simp [help, printf_run, Event.is_startup]⟩
  rw [if_neg h1]
  by_cases h2 : c = 'H'
  · subst h2
    exact ⟨rfl, rfl, by simp [towel, printf_run, Event.is_startup]⟩
  rw [if_neg h2]
  by_cases h3 : c = 'v'
  · subst h3
    exact ⟨rfl, rfl, by simp [version, printf_run, Event.is_startup]⟩
  rw [if_neg h3]
  by_cases h4 : c = '?'
  · subst h4
    simp only [Char.reduceEq, ↓reduceIte]
    repeat' split
    all_goals simp [Event.is_startup]
  · rcases h with (((h | h) | h) | h) | ⟨h, ho⟩
    · exact absurd h h1
    · exact absurd h h2
    · exact absurd h h3
    · exact absurd h h4
    · subst ho
      rcases h with (h | h) | h <;> subst h <;> exact ⟨rfl, rfl, by simp [xstrdup]⟩

theorem main_getopt_loop_cons (g : Getopt) (gs : List Getopt) (l : MainLocals) (w : World) :
    main_getopt_loop (g :: gs) l w = (main_switch g l >>= fun l1 => main_getopt_loop gs l1) w :=
  rfl

/-- The option loop on a command line without an option that ends the run. -/
theorem main_getopt_loop_ret (opts : List Getopt) :
    ∀ (l : MainLocals) (w : World), opts.any Getopt.stops = false →
    ∃ l1, main_getopt_loop opts l w = ⟨.ret l1, w, []⟩ ∧
      l1.udp = (if opts.any (fun g => g.c = 'u') then 1 else l.udp) ∧
      l1.ipv4 = (match last_opt (fun g => g.c = '4' || g.c = '6') opts with
        | some g => if g.c = '4' then 1 else 0
        | none => l.ipv4) ∧
      l1.daemon = (if opts.any (fun g => g.c = 'D') then 0 else l.daemon) ∧
      l1.port = (match last_opt (fun g => g.c = 'p') opts with
        | some g => g.optarg
        | none => l.port) ∧
      l1.stun = (match last_opt (fun g => g.c = 't') opts with
        | some g => g.optarg
        | none => l.stun) ∧
      l1.dev = (match last_opt (fun g => g.c = 'd') opts with
        | some g => g.optarg
        | none => l.dev) ∧
      l1.alias_ = (match last_opt (fun g => g.c = 'c' && g.optarg.isSome) opts with
        | some g => g.optarg.map fun a => if a.data.head? = some '=' then ⟨a.data.tail⟩ else a
        | none => l.alias_) ∧
      l1.wmode = (match last_opt (fun g => (mode_of_char g.c).isSome) opts with
        | some g => (mode_of_char g.c).getD MODE_UNKNOW
        | none => l.wmode) := by
  induction opts with
  | nil =>
    intro l w _
    exact ⟨l, rfl, by simp [last_opt_nil]⟩
  | cons g gs ih =>
    intro l w h
    simp only [List.any_cons, Bool.or_eq_false_iff] at h
    obtain ⟨l1, e1, a1, a2, a3, a4, a5, a6, a7, a8⟩ := main_switch_ret g l w h.1
    obtain ⟨l2, e2, b1, b2, b3, b4, b5, b6, b7, b8⟩ := ih l1 w h.2
    refine ⟨l2, ?_, ?_, ?_, ?_, ?_, ?_, ?_, ?_, ?_⟩
    · rw [main_getopt_loop_cons, bind_eq, e1]
      simp only [e2, List.nil_append]
    · rw [b1, a1]
      simp only [List.any_cons, Bool.or_eq_true, decide_eq_true_eq]
      by_cases hg : g.c = 'u' <;> by_cases hs : gs.any (fun g => decide (g.c = 'u')) = true <;>
        simp [hg, hs]
    · rw [b2, a2, last_opt_cons]
      cases last_opt (fun g => g.c = '4' || g.c = '6') gs with
      | some x => simp
      | none =>
        by_cases h4 : g.c = '4'
        · simp [h4]
        · by_cases h6 : g.c = '6' <;> simp [h4, h6]
    · rw [b3, a3]
      simp only [List.any_cons, Bool.or_eq_true, decide_eq_true_eq]
      by_cases hg : g.c = 'D' <;> by_cases hs : gs.any (fun g => decide (g.c = 'D')) = true <;>
        simp [hg, hs]
    · rw [b4, a4, last_opt_cons]
      cases last_opt (fun g => g.c = 'p') gs with
      | some x => simp
      | none => by_cases hg : g.c = 'p' <;> simp [hg]
    · rw [b5, a5, last_opt_cons]
      cases last_opt (fun g => g.c = 't') gs with
      | some x => simp
      | none => by_cases hg : g.c = 't' <;> simp [hg]
    · rw [b6, a6, last_opt_cons]
      cases last_opt (fun g => g.c = 'd') gs with
      | some x => simp
      | none => by_cases hg : g.c = 'd' <;> simp [hg]
    · rw [b7, a7, last_opt_cons]
      cases last_opt (fun g => g.c = 'c' && g.optarg.isSome) gs with
      | some x => simp
      | none => by_cases hg : g.c = 'c' <;> by_cases ho : g.optarg.isSome = true <;> simp [hg, ho]
    · rw [b8, a8, last_opt_cons]
      cases last_opt (fun g => (mode_of_char g.c).isSome) gs with
      | some x => simp
      | none =>
        cases hm : mode_of_char g.c with
        | none => simp
        | some m => simp [hm]

/-- The option loop on a command line with an option that ends the run. -/
theorem main_getopt_loop_stops (opts : List Getopt) :
    ∀ (l : MainLocals) (w : World), opts.any Getopt.stops = true →
      (main_getopt_loop opts l w).out = .died ∧ (main_getopt_loop opts l w).w = w ∧
      ∀ e ∈ (main_getopt_loop opts l w).trace, e.is_startup = true := by
  induction opts with
  | nil => intro l w h; simp at h
  | cons g gs ih =>
    intro l w h
    rw [main_getopt_loop_cons]
    by_cases hg : g.stops = true
    · obtain ⟨h1, h2, h3⟩ := main_switch_stops g l w hg
      rw [bind_eq, h1]
      exact ⟨rfl, h2, h3⟩
    · have hg' : g.stops = false := by simpa using hg
      obtain ⟨l1, e1, -⟩ := main_switch_ret g l w hg'
      have hs : gs.any Getopt.stops = true := by
        simpa [List.any_cons, hg'] using h
      obtain ⟨h1, h2, h3⟩ := ih l1 w hs
      rw [bind_eq, e1]
      simpa using ⟨h1, h2, h3⟩

theorem main_getopt_loop_init (opts : List Getopt) (w : World)
    (h : opts.any Getopt.stops = false) :
    main_getopt_loop opts MainLocals.init w = ⟨.ret (locals_of opts), w, []⟩ := by
  obtain ⟨l1, e1, a1, a2, a3, a4, a5, a6, a7, a8⟩ := main_getopt_loop_ret opts MainLocals.init w h
  rw [e1]
  congr 2
  rcases l1 with ⟨udp, ipv4, daemon, port, stun, dev, al, wm⟩
  simp only at a1 a2 a3 a4 a5 a6 a7 a8
  subst a1 a2 a3 a4 a5 a6 a7 a8
  simp only [locals_of, udp_of, ipv4_of, daemon_of, last_arg, alias_of, last_mode,
    MainLocals.init, MainLocals.mk.injEq]
  refine ⟨trivial, trivial, trivial, ?_, ?_, ?_, ?_, trivial⟩
  · cases last_opt (fun g => g.c = 'p') opts <;> rfl
  · cases last_opt (fun g => g.c = 't') opts <;> rfl
  · cases last_opt (fun g => g.c = 'd') opts <;> rfl
  · cases last_opt (fun g => g.c = 'c' && g.optarg.isSome) opts <;> rfl

theorem last_opt_eq_none (p : Getopt → Bool) (opts : List Getopt)
    (h : ∀ g ∈ opts, p g = false) : last_opt p opts = none := by
  simp only [last_opt, List.find?_eq_none, List.mem_reverse]
  intro g hg
  simp [h g hg]

theorem fetch_home_dir_run (w : World) :
    fetch_home_dir w =
      match w.getenv "HOME" with
      | none => ⟨.died, w, [.stderr "No HOME defined!\n"]⟩
      | some home => ⟨.ret home, w, []⟩ := by
  rw [fetch_home_dir, bind_eq]
  simp only [getWorld_run, List.nil_append]
  cases w.getenv "HOME" <;> rfl

/-- What `main` does once the option loop has returned. -/
theorem main_run (w : World) (argc : Int) (opts : List Getopt) (home : String)
    (hpre : w.getenv "LD_PRELOAD" = none) (hhome : w.getenv "HOME" = some home)
    (hstop : opts.any Getopt.stops = false) (hargc : 2 ≤ argc) (hself : w.selftest_ok = true) :
    main argc opts w =
      ⟨(main_mode_switch home (locals_of opts) w).out,
        (main_mode_switch home (locals_of opts) w).w,
        [.register_signal SIGINT, .register_signal SIGHUP, .stdout "curvetun\n",
          .curve25519_selftest] ++ (main_mode_switch home (locals_of opts) w).trace⟩ := by
  have ha : ¬ argc < 2 := not_lt.mpr hargc
  rw [main, bind_eq, getWorld_run]
  simp only [hpre, Option.isSome_none, Bool.false_eq_true, ↓reduceIte]
  rw [bind_eq, fetch_home_dir_run, hhome]
  simp only
  rw [bind_eq, main_getopt_loop_init opts w hstop]
  simp only [ha, ↓reduceIte, List.nil_append]
  rw [bind_eq]
  simp only [register_signal, emit_run]
  rw [bind_eq]
  simp only [emit_run]
  rw [bind_eq]
  simp only [header, printf_run]
  rw [bind_eq]
  simp only [curve25519_selftest, hself, ↓reduceIte, List.cons_append, List.nil_append]

/-- Whatever the command line, `main` dies with nothing but start-up calls made
when the mode is the server mode and no port was given. -/
theorem main_server_no_port (w : World) (argc : Int) (opts : List Getopt)
    (hmode : last_mode opts = MODE_SERVER) (hport : last_arg 'p' opts = none) :
    (main argc opts w).out = .died ∧ (main argc opts w).w = w ∧
      ∀ e ∈ (main argc opts w).trace, e.is_startup = true := by
  rw [main, bind_eq, getWorld_run]
  simp only [List.nil_append]
  by_cases hpre : (w.getenv "LD_PRELOAD").isSome = true
  · simp [hpre, Event.is_startup]
  simp only [hpre, Bool.false_eq_true, ↓reduceIte]
  rw [bind_eq, fetch_home_dir_run]
  cases hhome : w.getenv "HOME" with
  | none => simp [Event.is_startup]
  | some home =>
    simp only [List.nil_append]
    by_cases hstop : opts.any Getopt.stops = true
    · obtain ⟨h1, h2, h3⟩ := main_getopt_loop_stops opts MainLocals.init w hstop
      rw [bind_eq, h1]
      exact ⟨rfl, h2, h3⟩
    have hstop' : opts.any Getopt.stops = false := by simpa using hstop
    rw [bind_eq, main_getopt_loop_init opts w hstop']
    simp only [List.nil_append]
    by_cases ha : argc < 2
    · simp [ha, help, printf_run, Event.is_startup]
    simp only [ha, ↓reduceIte]
    rw [bind_eq]
    simp only [register_signal, emit_run]
    rw [bind_eq]
    simp only [emit_run]
    rw [bind_eq]
    simp only [header, printf_run]
    rw [bind_eq]
    by_cases hself : w.selftest_ok = true
    · simp only [curve25519_selftest, hself, ↓reduceIte, main_mode_switch]
      have e1 : (locals_of opts).wmode = MODE_SERVER := hmode
      have e2 : (locals_of opts).port = none := hport
      simp [e1, e2, Event.is_startup]
    · simp [curve25519_selftest, hself, Event.is_startup]

/-- C8: for every command line whose last mode option is `-s` and that has no
`-p`, in every world, `main` dies and leaves the world as it was, having made
only start-up calls: no STUN probe, no `stat` or `open` of a configuration
check, no `daemon`, no `server_main`.  When nothing else ends the run before,
the last call is the `panic` that no port was specified. -/
theorem server_mode_needs_port (w : World) (argc : Int) (opts : List Getopt) (home : String)
    (hmode : last_mode opts = MODE_SERVER) (hport : ∀ g ∈ opts, g.c ≠ 'p') :
    (main argc opts w).out = .died ∧ (main argc opts w).w = w ∧
    (∀ e ∈ (main argc opts w).trace, e.is_startup = true) ∧
    (∀ s p t, Event.print_stun_probe s p t ∉ (main argc opts w).trace) ∧
    (∀ p, Event.stat p ∉ (main argc opts w).trace) ∧
    (∀ p f, Event.open_ p f ∉ (main argc opts w).trace) ∧
    Event.daemon ∉ (main argc opts w).trace ∧
    (∀ h d p u i, Event.server_main h d p u i ∉ (main argc opts w).trace) ∧
    (w.getenv "LD_PRELOAD" = none → w.getenv "HOME" = some home →
      opts.any Getopt.stops = false → 2 ≤ argc → w.selftest_ok = true →
      (main argc opts w).trace =
        [.register_signal SIGINT, .register_signal SIGHUP, .stdout "curvetun\n",
          .curve25519_selftest, .stderr "No port specified!\n"]) := by
  have hp : last_arg 'p' opts = none := by
    unfold last_arg
    rw [last_opt_eq_none _ _ (fun g hg => by simpa using hport g hg)]
    rfl
  obtain ⟨h1, h2, h3⟩ := main_server_no_port w argc opts hmode hp
  refine ⟨h1, h2, h3, ?_, ?_, ?_, ?_, ?_, ?_⟩
  · intro s p t hm
    simpa [Event.is_startup] using h3 _ hm
  · intro p hm
    simpa [Event.is_startup] using h3 _ hm
  · intro p f hm
    simpa [Event.is_startup] using h3 _ hm
  · intro hm
    simpa [Event.is_startup] using h3 _ hm
  · intro h d p u i hm
    simpa [Event.is_startup] using h3 _ hm
  · intro hpre hhome hstop hargc hself
    rw [main_run w argc opts home hpre hhome hstop hargc hself]
    have e1 : (locals_of opts).wmode = MODE_SERVER := hmode
    have e2 : (locals_of opts).port = none := hp
    simp [main_mode_switch, e1, e2]

/-- The run C8 is shown on: `curvetun -s -u -t stun.example` in `demo_world`. -/
theorem server_mode_needs_port_witness :
    last_mode [⟨'s', none, '\x00'⟩, ⟨'u', none, '\x00'⟩, ⟨'t', some "stun.example", '\x00'⟩]
      = MODE_SERVER ∧
    (main 5 [⟨'s', none, '\x00'⟩, ⟨'u', none, '\x00'⟩, ⟨'t', some "stun.example", '\x00'⟩]
      demo_world).out = .died ∧
    (main 5 [⟨'s', none, '\x00'⟩, ⟨'u', none, '\x00'⟩, ⟨'t', some "stun.example", '\x00'⟩]
      demo_world).trace =
        [.register_signal SIGINT, .register_signal SIGHUP, .stdout "curvetun\n",
          .curve25519_selftest, .stderr "No port specified!\n"] :=
  ⟨by decide,
    (server_mode_needs_port demo_world 5 _ "/home/u" (by decide) (by decide)).1,
    (server_mode_needs_port demo_world 5 _ "/home/u" (by decide) (by decide)).2.2.2.2.2.2.2.2
      (by decide) (by decide) (by decide) (by decide) (by decide)⟩

theorem last_opt_append (p : Getopt → Bool) (pre post : List Getopt) (g : Getopt)
    (hg : p g = true) (hpost : ∀ x ∈ post, p x = false) :
    last_opt p (pre ++ g :: post) = some g := by
  simp only [last_opt, List.reverse_append, List.reverse_cons, List.append_assoc,
    List.find?_append]
  have h : post.reverse.find? p = none := by
    simp only [List.find?_eq_none, List.mem_reverse]
    intro x hx
    simp [hpost x hx]
  simp [h, hg]

theorem main_stops (w : World) (argc : Int) (opts : List Getopt)
    (hstop : opts.any Getopt.stops = true) :
    (main argc opts w).out = .died ∧ (main argc opts w).w = w ∧
      ∀ e ∈ (main argc opts w).trace, e.is_startup = true := by
  rw [main, bind_eq, getWorld_run]
  simp only [List.nil_append]
  by_cases hpre : (w.getenv "LD_PRELOAD").isSome = true
  · simp [hpre, Event.is_startup]
  simp only [hpre, Bool.false_eq_true, ↓reduceIte]
  rw [bind_eq, fetch_home_dir_run]
  cases hhome : w.getenv "HOME" with
  | none => simp [Event.is_startup]
  | some home =>
    simp only [List.nil_append]
    obtain ⟨h1, h2, h3⟩ := main_getopt_loop_stops opts MainLocals.init w hstop
    rw [bind_eq, h1]
    exact ⟨rfl, h2, h3⟩

theorem daemonize_lock_trace (w : World) (h : w.ppid ≠ 1) :
    Event.daemon ∈ (daemonize (some LOCKFILE) w).trace := by
  simp [daemonize, h, daemon]

/-- C10: the variables the option loop of `main` leaves are those the help text
describes.  On a command line without an option that ends the run in the loop
(help, towel, version, a rejected option) the loop returns `locals_of`: `udp`
is 0 (TCP) unless `-u` occurs, `daemon` is 1 unless `-D` occurs, `ipv4` is -1
unless `-4` or `-6` occurs and then 1 or 0 by the last of them, and `wmode` is
the mode of the last of the options k, x, A, C, S, c, s.  `main` then runs the
function of that mode with these values, `main_server` getting `udp`, `ipv4`
and `daemon`, and `main_client` getting `daemon`; without a mode option it
dies after the start-up calls with no mode function run.  With an option that
ends the run in the loop, `main` dies with only start-up calls made.  A mode
function that has passed the checks calls `daemon` exactly when its flag is
non-zero, unless the parent process is `init`. -/
theorem command_line_defaults (w : World) (argc : Int) (opts : List Getopt) (home : String) :
    (udp_of opts = if ∃ g ∈ opts, g.c = 'u' then 1 else 0) ∧
    (daemon_of opts = if ∃ g ∈ opts, g.c = 'D' then 0 else 1) ∧
    ((∀ g ∈ opts, g.c ≠ '4' ∧ g.c ≠ '6') → ipv4_of opts = -1) ∧
    (∀ pre g post, opts = pre ++ g :: post → (∀ x ∈ post, x.c ≠ '4' ∧ x.c ≠ '6') →
      (g.c = '4' → ipv4_of opts = 1) ∧ (g.c = '6' → ipv4_of opts = 0)) ∧
    ((∀ g ∈ opts, mode_of_char g.c = none) → last_mode opts = MODE_UNKNOW) ∧
    (∀ pre g post m, opts = pre ++ g :: post → mode_of_char g.c = some m →
      (∀ x ∈ post, mode_of_char x.c = none) → last_mode opts = m) ∧
    (opts.any Getopt.stops = false →
      main_getopt_loop opts MainLocals.init w = ⟨.ret (locals_of opts), w, []⟩) ∧
    (opts.any Getopt.stops = true →
      (main argc opts w).out = .died ∧ ∀ e ∈ (main argc opts w).trace, e.is_startup = true) ∧
    (w.getenv "LD_PRELOAD" = none → w.getenv "HOME" = some home →
      opts.any Getopt.stops = false → 2 ≤ argc → w.selftest_ok = true →
      main argc opts w =
        ⟨(main_mode_switch home (locals_of opts) w).out,
          (main_mode_switch home (locals_of opts) w).w,
          [.register_signal SIGINT, .register_signal SIGHUP, .stdout "curvetun\n",
            .curve25519_selftest] ++ (main_mode_switch home (locals_of opts) w).trace⟩) ∧
    (last_mode opts = MODE_KEYGEN → main_mode_switch home (locals_of opts) = main_keygen home) ∧
    (last_mode opts = MODE_EXPORT → main_mode_switch home (locals_of opts) = main_export home) ∧
    (last_mode opts = MODE_TOKEN → main_mode_switch home (locals_of opts) = main_token home) ∧
    (last_mode opts = MODE_DUMPC → main_mode_switch home (locals_of opts) = main_dumpc home) ∧
    (last_mode opts = MODE_DUMPS → main_mode_switch home (locals_of opts) = main_dumps home) ∧
    (last_mode opts = MODE_CLIENT →
      main_mode_switch home (locals_of opts) =
        main_client home (last_arg 'd' opts) (alias_of opts) (daemon_of opts)) ∧
    (last_mode opts = MODE_SERVER → ∀ port, last_arg 'p' opts = some port →
      main_mode_switch home (locals_of opts) =
        ((match last_arg 't' opts with
          | some stun => print_stun_probe stun 3478 port
          | none => pure ()) >>= fun _ =>
          main_server home (last_arg 'd' opts) port (udp_of opts) (ipv4_of opts)
            (daemon_of opts))) ∧
    (last_mode opts = MODE_UNKNOW →
      main_mode_switch home (locals_of opts) w = ⟨.died, w, []⟩) ∧
    (∀ dev port udp ipv4 daemon, checks_pass w home → w.ppid ≠ 1 →
      (Event.daemon ∈ (main_server home dev port udp ipv4 daemon w).trace ↔ daemon ≠ 0)) := by
  refine ⟨?_, ?_, ?_, ?_, ?_, ?_, main_getopt_loop_init opts w, ?_, main_run w argc opts home,
    ?_, ?_, ?_, ?_, ?_, ?_, ?_, ?_, ?_⟩
  · simp [udp_of, List.any_eq_true]
  · simp [daemon_of, List.any_eq_true]
  · intro h
    unfold ipv4_of
    rw [last_opt_eq_none _ _ (fun g hg => by simpa using h g hg)]
  · intro pre g post ho hpost
    subst ho
    constructor
    · intro hg
      unfold ipv4_of
      rw [last_opt_append _ pre post g (by simp [hg]) (fun x hx => by simpa using hpost x hx)]
      simp [hg]
    · intro hg
      unfold ipv4_of
      rw [last_opt_append _ pre post g (by simp [hg]) (fun x hx => by simpa using hpost x hx)]
      simp [hg]
  · intro h
    unfold last_mode
    rw [last_opt_eq_none _ _ (fun g hg => by simp [h g hg])]
  · intro pre g post m ho hg hpost
    subst ho
    unfold last_mode
    rw [last_opt_append _ pre post g (by simp [hg]) (fun x hx => by simp [hpost x hx])]
    simp [hg]
  · intro hstop
    exact ⟨(main_stops w argc opts hstop).1, (main_stops w argc opts hstop).2.2⟩
  · intro h; simp only [main_mode_switch]; rw [show (locals_of opts).wmode = _ from h]
  · intro h; simp only [main_mode_switch]; rw [show (locals_of opts).wmode = _ from h]
  · intro h; simp only [main_mode_switch]; rw [show (locals_of opts).wmode = _ from h]
  · intro h; simp only [main_mode_switch]; rw [show (locals_of opts).wmode = _ from h]
  · intro h; simp only [main_mode_switch]; rw [show (locals_of opts).wmode = _ from h]
  · intro h; simp only [main_mode_switch]; rw [show (locals_of opts).wmode = _ from h]; rfl
  · intro h port hp
    simp only [main_mode_switch]
    rw [show (locals_of opts).wmode = _ from h]
    simp only
    rw [show (locals_of opts).port = _ from hp]
    simp only
    rw [show (locals_of opts).stun = last_arg 't' opts from rfl]
    cases last_arg 't' opts <;> rfl
  · intro h; simp only [main_mode_switch]; rw [show (locals_of opts).wmode = _ from h]; rfl
  · intro dev port udp ipv4 daemon hpass hppid
    have hpr := checks_trace_probe home w
    have hnd : Event.daemon ∉ (check_config_exists_or_die (some home) w).trace ++
        (check_config_keypair_or_die home w).trace := fun hm => by
      have := hpr _ hm
      simp [Event.is_probe] at this
    have hl := daemonize_lock_trace w hppid
    unfold main_server
    rw [checks_then_eq home _ w hpass]
    simp only [← List.append_assoc, List.mem_append, hnd, false_or, bind_trace, bind_out,
      bind_w]
    by_cases hd : daemon = 0
    · simp [hd, server_main]
    · simp [hd, hl]

/-- The run C10 is shown on: `curvetun -s -4 -p 6666 -u -6 -D` in `demo_world`
starts the server on UDP, with IPv6 tunnel devices and without daemonizing. -/
theorem command_line_defaults_witness :
    demo_opts.any Getopt.stops = false ∧
    (main_getopt_loop demo_opts MainLocals.init demo_world).out =
      .ret ⟨1, 0, 0, some "6666", none, none, none, MODE_SERVER⟩ ∧
    (main 7 demo_opts demo_world).trace.getLast? = some (.unlink LOCKFILE) ∧
    Event.server_main "/home/u" none "6666" 1 0 ∈ (main 7 demo_opts demo_world).trace ∧
    Event.daemon ∉ (main 7 demo_opts demo_world).trace :=
  ⟨by decide,
    by rw [(command_line_defaults demo_world 7 demo_opts "/home/u").2.2.2.2.2.2.1 (by decide)]
       decide,
    by rw [(command_line_defaults demo_world 7 demo_opts "/home/u").2.2.2.2.2.2.2.2.1
        (by decide) (by decide) (by decide) (by decide) (by decide)]
       decide,
    by decide, by decide⟩

theorem creat_mode (um : Nat) (h : um &&& 0o600 = 0) :
    u32 (S_IFREG ||| ((S_IRUSR ||| S_IWUSR) &&& compl32 um)) = 0o100600 := by
  have h600 : (S_IRUSR ||| S_IWUSR) &&& compl32 um = 0o600 := by
    apply Nat.eq_of_testBit_eq
    intro i
    have hi := congrArg (fun x => x.testBit i) h
    simp only [Nat.testBit_and, Nat.zero_testBit] at hi
    simp only [compl32, u32, Nat.testBit_and, Nat.testBit_xor, Nat.testBit_mod_two_pow,
      Nat.testBit_two_pow_sub_one]
    have e : S_IRUSR ||| S_IWUSR = 0o600 := by decide
    rw [e]
    by_cases h6 : Nat.testBit 0o600 i = true
    · have hlt : i < 32 := by
        by_contra hge
        have : Nat.testBit 0o600 i = false :=
          Nat.testBit_lt_two_pow (lt_of_lt_of_le (by decide : 0o600 < 2 ^ 32)
            (Nat.pow_le_pow_right (by decide) (not_lt.mp hge)))
        rw [this] at h6
        exact absurd h6 (by decide)
      have hu : um.testBit i = false := by
        rw [h6, Bool.and_true] at hi
        exact hi
      simp [h6, hlt, hu]
    · have h6' : Nat.testBit 0o600 i = false := by simpa using h6
      simp [h6']
  rw [h600]
  decide

theorem mkdir_run (path : String) (mode : Nat) (w : World) :
    mkdir path mode w =
      ⟨.ret (match w.mkdir_errno path with
        | none => (0, 0)
        | some e => (-1, e)), w, [.mkdir path mode]⟩ := by
  unfold mkdir
  cases w.mkdir_errno path <;> rfl

theorem open_creat_notrunc_fs (path : String) (mode : Nat) (w : World) (p : String) :
    (open_creat path false mode w).w.fs p =
      if p = path ∧ w.creat_fails path = false ∧ w.fs path = none then
        some ⟨S_IFREG ||| (mode &&& compl32 w.umask), []⟩
      else w.fs p := by
  unfold open_creat
  cases hc : w.creat_fails path
  · cases hfs : w.fs path with
    | none =>
      by_cases hp : p = path
      · simp [setFile, hp]
      · simp [setFile, hp]
    | some i =>
      by_cases hp : p = path
      · simp [setFile, hp, hfs]
      · simp [setFile, hp]
  · simp

theorem create_curvedir_ok (w : World) (home : String)
    (h : (create_curvedir home w).out = .ret ()) :
    let wa := open_creat (snprintf_path home FILE_CLIENTS) false (S_IRUSR ||| S_IWUSR) w
    let wb := open_creat (snprintf_path home FILE_SERVERS) false (S_IRUSR ||| S_IWUSR) wa.w
    wa.out = .ret true ∧ wb.out = .ret true ∧ (create_curvedir home w).w = wb.w := by
  intro wa wb
  simp only [create_curvedir, bind_out, bind_w, mkdir_run] at h ⊢
  repeat' first
    | simp only [bind_out, bind_w, info_run, open_creat_out, pure_run, panic_run, ↓reduceIte,
        Bool.not_not, Bool.not_eq_true, Bool.false_eq_true, Bool.not_false, Bool.not_true,
        ne_eq, not_true_eq_false, not_false_eq_true, reduceCtorEq, *] at h ⊢
    | split at h
  all_goals
    simp only [wa, wb, open_creat_out, Outcome.ret.injEq]
    simp_all

/-- The files `create_curvedir` creates pass the check of a file that may be empty. -/
theorem create_curvedir_fresh (w : World) (home file : String)
    (hfile : file = FILE_CLIENTS ∨ file = FILE_SERVERS)
    (habs : w.fs (snprintf_path home file) = none)
    (h : (create_curvedir home w).out = .ret ()) :
    (create_curvedir home w).w.fs (snprintf_path home file) =
      some ⟨S_IFREG ||| ((S_IRUSR ||| S_IWUSR) &&& compl32 w.umask), []⟩ := by
  obtain ⟨ha, hb, hw⟩ := create_curvedir_ok w home h
  rw [open_creat_out] at ha hb
  have hca : w.creat_fails (snprintf_path home FILE_CLIENTS) = false := by simpa using ha
  have hcb : (open_creat (snprintf_path home FILE_CLIENTS) false (S_IRUSR ||| S_IWUSR)
      w).w.creat_fails (snprintf_path home FILE_SERVERS) = false := by simpa using hb
  have hu : (open_creat (snprintf_path home FILE_CLIENTS) false (S_IRUSR ||| S_IWUSR)
      w).w.umask = w.umask := (env_fields _ _ (open_creat_env _ _ _ _).1).2.2.2.2
  rw [hw, open_creat_notrunc_fs, open_creat_notrunc_fs, open_creat_notrunc_fs, hu]
  rcases hfile with hf | hf
  · subst hf
    simp only [hca, habs, and_self, true_and, ↓reduceIte]
    by_cases hp : snprintf_path home FILE_CLIENTS = snprintf_path home FILE_SERVERS
    · simp [hp, hcb]
    · simp [hp]
  · subst hf
    simp only [hcb, true_and]
    by_cases hp : snprintf_path home FILE_SERVERS = snprintf_path home FILE_CLIENTS
    · rw [hp] at habs
      simp [hp, hca, habs]
    · simp [hp, habs]

/-- C6: `check_config_exists_or_die` dies on a null home directory; with a home
directory it returns exactly when all six files pass `check_file_or_die`, the
clients and servers files with `maybeempty` 1 and the other four with 0: each
of the six is a regular file of mode 0600, and only the clients and the servers
file may be of length zero. The clients and the servers file that
`create_curvedir` (called by keygen) creates where none was, under a umask that
leaves the owner's read and write bits, are empty and pass their check. -/
theorem check_config_exists_or_die_spec (w : World) (home : String) :
    (check_config_exists_or_die none w).out = .died ∧
    ((check_config_exists_or_die (some home) w).out = .ret () ↔
      (check_file_or_die home FILE_CLIENTS 1 w).out = .ret () ∧
      (check_file_or_die home FILE_SERVERS 1 w).out = .ret () ∧
      (check_file_or_die home FILE_PRIVKEY 0 w).out = .ret () ∧
      (check_file_or_die home FILE_PUBKEY 0 w).out = .ret () ∧
      (check_file_or_die home FILE_USERNAM 0 w).out = .ret () ∧
      (check_file_or_die home FILE_TOKEN 0 w).out = .ret ()) ∧
    ((check_config_exists_or_die (some home) w).out = .ret () ↔
      ∀ file ∈ config_files, ∃ ino, w.fs (snprintf_path home file) = some ino ∧
        u32 ino.st_mode = 0o100600 ∧
        (ino.data = [] → file = FILE_CLIENTS ∨ file = FILE_SERVERS)) ∧
    (∀ file, file = FILE_CLIENTS ∨ file = FILE_SERVERS →
      w.fs (snprintf_path home file) = none → w.umask &&& 0o600 = 0 →
      (create_curvedir home w).out = .ret () →
      (create_curvedir home w).w.content (snprintf_path home file) = some [] ∧
      (check_file_or_die home file 1 (create_curvedir home w).w).out = .ret ()) := by
  refine ⟨rfl, check_config_exists_or_die_out w home, ?_, ?_⟩
  swap
  · intro file hfile habs hum hret
    have hfs := create_curvedir_fresh w home file hfile habs hret
    refine ⟨by rw [World.content, hfs]; rfl, ?_⟩
    rw [check_file_or_die_mode]
    exact ⟨_, hfs, creat_mode w.umask hum, Or.inr (by decide)⟩
  rw [check_config_exists_or_die_out]
  simp only [check_file_or_die_mode, config_files, List.mem_cons, List.mem_singleton,
    forall_eq_or_imp, forall_eq, List.not_mem_nil, false_implies, implies_true, and_true,
    List.length_eq_zero]
  have e1 : ¬ FILE_PRIVKEY = FILE_CLIENTS ∧ ¬ FILE_PRIVKEY = FILE_SERVERS := by decide
  have e2 : ¬ FILE_PUBKEY = FILE_CLIENTS ∧ ¬ FILE_PUBKEY = FILE_SERVERS := by decide
  have e3 : ¬ FILE_USERNAM = FILE_CLIENTS ∧ ¬ FILE_USERNAM = FILE_SERVERS := by decide
  have e4 : ¬ FILE_TOKEN = FILE_CLIENTS ∧ ¬ FILE_TOKEN = FILE_SERVERS := by decide
  have e5 : ¬ FILE_SERVERS = FILE_CLIENTS := by decide
  simp [e1, e2, e3, e4, e5]

theorem check_config_exists_or_die_spec_witness :
    fresh_world.fs (snprintf_path "/home/u" FILE_SERVERS) = none ∧
    fresh_world.umask &&& 0o600 = 0 ∧
    (create_curvedir "/home/u" fresh_world).out = .ret () ∧
    (create_curvedir "/home/u" fresh_world).w.content (snprintf_path "/home/u" FILE_SERVERS) =
      some [] ∧
    (check_file_or_die "/home/u" FILE_SERVERS 1 (create_curvedir "/home/u" fresh_world).w).out =
      .ret () ∧
    (check_config_exists_or_die (some "/home/u") demo_world).out = .ret () ∧
    (check_config_exists_or_die (some "/home/u") fresh_world).out = .died :=
  ⟨by decide, by decide, by decide,
    (check_config_exists_or_die_spec fresh_world "/home/u").2.2.2 FILE_SERVERS (Or.inr rfl)
      (by decide) (by decide) (by decide) |>.1,
    by decide, by decide, by decide⟩

end Curvetun

namespace Dump

/-! ## `pcap_dump` -/

theorem dump_write_full (fd : Int) (mem : List Nat) (count : Nat) (w : DumpWorld)
    (h : (write fd mem count w).1 = (count : Int)) :
    count ≤ mem.length ∧
    (write fd mem count w).2.file fd = w.file fd ++ mem.take count ∧
    (∀ d, d ≠ fd → (write fd mem count w).2.file d = w.file d) ∧
    (write fd mem count w).2.write_ret = w.write_ret := by
  unfold write at h ⊢
  by_cases hr : w.write_ret fd (w.file fd).length count < 0
  · simp only [hr, ↓reduceIte] at h
    omega
  · simp only [hr, ↓reduceIte] at h ⊢
    have hn : min (w.write_ret fd (w.file fd).length count).toNat (min count mem.length) = count := by
      exact_mod_cast h
    rw [hn]
    refine ⟨by omega, by simp, ?_⟩
    simp only [and_true]
    intro d hd
    simp [hd]

/-- The record header carries the four members of a packet header that fits
its C types. -/
theorem pcap_dump_sf_hdr_wf (tp_h : tpacket_hdr) (h : tp_h.wf) :
    pcap_dump_sf_hdr tp_h =
      { ts := { tv_sec := tp_h.tp_sec, tv_usec := tp_h.tp_usec }
        caplen := tp_h.tp_snaplen
        len := tp_h.tp_len } := by
  obtain ⟨_, h1, h2, _, _, h3, h4⟩ := h
  simp only [pcap_dump_sf_hdr, to_u32, Nat.mod_eq_of_lt h1, Nat.mod_eq_of_lt h2,
    Nat.mod_eq_of_lt h3, Nat.mod_eq_of_lt h4]

/-- A call of `pcap_dump` returns exactly when the first `write` returns the
size of the record header and the second returns `len`. -/
theorem pcap_dump_out (image : pcap_sf_pkthdr → List Nat) (fd : Int) (tp_h : tpacket_hdr)
    (sp : List Nat) (w : DumpWorld) :
    (pcap_dump image fd tp_h sp w).out = some () ↔
      (write fd (image (pcap_dump_sf_hdr tp_h)) (image (pcap_dump_sf_hdr tp_h)).length w).1 =
          ((image (pcap_dump_sf_hdr tp_h)).length : Int) ∧
      (write fd sp (pcap_dump_sf_hdr tp_h).len
          (write fd (image (pcap_dump_sf_hdr tp_h)) (image (pcap_dump_sf_hdr tp_h)).length w).2).1 =
        ((pcap_dump_sf_hdr tp_h).len : Int) := by
  unfold pcap_dump
  simp only []
  split
  · rename_i h1
    simp [pcap_dump_fail, h1]
  · rename_i h1
    split
    · rename_i h2
      simp [pcap_dump_fail, h2]
    · rename_i h2
      simp only [ne_eq, not_not] at h1 h2
      simp [h1, h2]

/-- What a returning `pcap_dump` has appended: the image of the record header,
then the first `len` bytes found at `sp`. -/
theorem pcap_dump_appended (image : pcap_sf_pkthdr → List Nat) (fd : Int) (tp_h : tpacket_hdr)
    (sp : List Nat) (w : DumpWorld) (h : (pcap_dump image fd tp_h sp w).out = some ()) :
    (pcap_dump_sf_hdr tp_h).len ≤ sp.length ∧
    appended fd w (pcap_dump image fd tp_h sp w).w =
      image (pcap_dump_sf_hdr tp_h) ++ sp.take (pcap_dump_sf_hdr tp_h).len := by
  obtain ⟨h1, h2⟩ := (pcap_dump_out image fd tp_h sp w).mp h
  have hw : (pcap_dump image fd tp_h sp w).w =
      (write fd sp (pcap_dump_sf_hdr tp_h).len
        (write fd (image (pcap_dump_sf_hdr tp_h)) (image (pcap_dump_sf_hdr tp_h)).length w).2).2 := by
    unfold pcap_dump
    simp only [h1, h2, ne_eq, not_true_eq_false, ↓reduceIte]
  obtain ⟨_, f1, _, _⟩ := dump_write_full _ _ _ _ h1
  obtain ⟨l2, f2, _, _⟩ := dump_write_full _ _ _ _ h2
  refine ⟨l2, ?_⟩
  rw [appended, hw, f2, f1, List.take_length, List.append_assoc, List.drop_left]

/-- The number of packet bytes a returning `pcap_dump` writes after the record
header is the `len` member of the header; it is the `caplen` member exactly
when the packet header has `tp_snaplen = tp_len`. -/
theorem pcap_dump_data_length (image : pcap_sf_pkthdr → List Nat) (fd : Int)
    (tp_h : tpacket_hdr) (sp : List Nat) (w : DumpWorld) (hwf : tp_h.wf)
    (h : (pcap_dump image fd tp_h sp w).out = some ()) :
    ((appended fd w (pcap_dump image fd tp_h sp w).w).drop
        (image (pcap_dump_sf_hdr tp_h)).length).length = tp_h.tp_len ∧
    (((appended fd w (pcap_dump image fd tp_h sp w).w).drop
        (image (pcap_dump_sf_hdr tp_h)).length).length = (pcap_dump_sf_hdr tp_h).caplen ↔
      tp_h.tp_snaplen = tp_h.tp_len) := by
  obtain ⟨hl, ha⟩ := pcap_dump_appended image fd tp_h sp w h
  rw [ha, List.drop_left, List.length_take, Nat.min_eq_left hl]
  rw [pcap_dump_sf_hdr_wf tp_h hwf] at hl ⊢
  exact ⟨rfl, eq_comm⟩

theorem cut_frame_length : cut_frame.length = 1982 := by
  rw [cut_frame, List.length_append, List.length_replicate, List.length_replicate]

theorem cut_run_out : (pcap_dump le_image 3 cut_hdr cut_frame open_world).out = some () := by
  rw [pcap_dump_out]
  have hl : ∀ h, (le_image h).length = 16 := fun h => rfl
  simp only [write, hl, open_world, cut_frame_length]
  decide

/-- C11: for the header of a 1514-byte frame of which 96 bytes were kept
(`tp_snaplen` 96, `tp_len` 1514), with both writes complete, `pcap_dump` returns;
the record header it wrote carries the seconds, the microseconds, `caplen` 96 and
`len` 1514; and the packet bytes written after the record header are the first
1514 bytes of the frame slot, not the 96 of the `caplen` member. -/
theorem pcap_dump_cut_frame :
    cut_hdr.wf ∧
    (pcap_dump le_image 3 cut_hdr cut_frame open_world).out = some () ∧
    (appended 3 open_world (pcap_dump le_image 3 cut_hdr cut_frame open_world).w).take 16 =
      le_image { ts := { tv_sec := 1288000000, tv_usec := 250000 }, caplen := 96, len := 1514 } ∧
    (appended 3 open_world (pcap_dump le_image 3 cut_hdr cut_frame open_world).w).drop 16 =
      cut_frame.take 1514 ∧
    ((appended 3 open_world (pcap_dump le_image 3 cut_hdr cut_frame open_world).w).drop
      16).length = 1514 ∧
    ((appended 3 open_world (pcap_dump le_image 3 cut_hdr cut_frame open_world).w).drop
      16).length ≠ (pcap_dump_sf_hdr cut_hdr).caplen := by
  have hwf : cut_hdr.wf := by decide
  have hh : pcap_dump_sf_hdr cut_hdr =
      { ts := { tv_sec := 1288000000, tv_usec := 250000 }, caplen := 96, len := 1514 } :=
    pcap_dump_sf_hdr_wf cut_hdr hwf
  have ha := (pcap_dump_appended le_image 3 cut_hdr cut_frame open_world cut_run_out).2
  have hl : ∀ h, (le_image h).length = 16 := fun h => rfl
  rw [hh] at ha
  refine ⟨hwf, cut_run_out, ?_, ?_, ?_, ?_⟩
  · rw [ha, ← hl { ts := { tv_sec := 1288000000, tv_usec := 250000 }, caplen := 96, len := 1514 },
      List.take_left]
  · rw [ha, ← hl { ts := { tv_sec := 1288000000, tv_usec := 250000 }, caplen := 96, len := 1514 },
      List.drop_left]
  · rw [ha, ← hl { ts := { tv_sec := 1288000000, tv_usec := 250000 }, caplen := 96, len := 1514 },
      List.drop_left, List.length_take, cut_frame_length]
    rfl
  · rw [ha, ← hl { ts := { tv_sec := 1288000000, tv_usec := 250000 }, caplen := 96, len := 1514 },
      List.drop_left, List.length_take, cut_frame_length, hh]
    decide

end Dump
